import Mathlib

/-!
Verification of the request-admission / rate-limiting engine
(`src/backend/rate_limiter.py`) against its specification.

The Python code is shallowly embedded: timestamps and token counts
(Python floats) are modelled as rationals `ℚ`, dictionaries as
association lists `List (String × α)` keeping Python's insertion-order
semantics, and every stateful method becomes a pure function from the
old state to a result paired with the new state.  Each embedded
definition mirrors one Python function and keeps its name.
-/

namespace RateLimiterModel

/-! ## Token bucket (`class TokenBucket`) -/

/-- State of `TokenBucket`: `capacity`, `refill_rate`, current `tokens`
and the time of the last refill (`last_refill`). -/
structure TokenBucket where
  capacity : ℚ
  refill_rate : ℚ
  tokens : ℚ
  last_refill : ℚ
  deriving Repr, DecidableEq

/-- Construction (`TokenBucket.__init__`): the bucket starts full, with
`last_refill` set to the current clock reading. -/
def TokenBucket.init (capacity refill_rate now : ℚ) : TokenBucket :=
  { capacity := capacity, refill_rate := refill_rate,
    tokens := capacity, last_refill := now }

/-- Embedding of `TokenBucket._refill` at clock reading `now`:
`tokens = min(capacity, tokens + (now - last_refill) * refill_rate)`,
then `last_refill = now`.  The source does NOT clamp the elapsed time
at zero. -/
def TokenBucket.refill (b : TokenBucket) (now : ℚ) : TokenBucket :=
  { b with
    tokens := min b.capacity (b.tokens + (now - b.last_refill) * b.refill_rate),
    last_refill := now }

/-- Embedding of `TokenBucket.consume(tokens=n)` at clock reading `now`:
refill first, then subtract `n` and answer `true` when at least `n`
tokens are available, else answer `false` leaving the count unchanged. -/
def TokenBucket.consume (b : TokenBucket) (now : ℚ) (n : ℕ := 1) :
    Bool × TokenBucket :=
  let b' := b.refill now
  if (n : ℚ) ≤ b'.tokens then (true, { b' with tokens := b'.tokens - n })
  else (false, b')

/-- Run a sequence of `consume` calls; each element of `ops` is the
clock reading of the call paired with the token count requested. -/
def runConsumes (b : TokenBucket) : List (ℚ × ℕ) → TokenBucket
  | [] => b
  | (t, n) :: rest => runConsumes (TokenBucket.consume b t n).2 rest

/-- Clock readings of the operation list are non-decreasing, starting
no earlier than `t`. -/
def timesMonoFrom (t : ℚ) : List (ℚ × ℕ) → Bool
  | [] => true
  | (s, _) :: rest => t ≤ s && timesMonoFrom s rest

/-- Well-formedness carried through the bucket invariant proof:
the token count lies in `[0, capacity]` and the metadata is fixed. -/
def TokenBucket.Good (C R : ℚ) (b : TokenBucket) : Prop :=
  b.capacity = C ∧ b.refill_rate = R ∧ 0 ≤ b.tokens ∧ b.tokens ≤ C

/-! ## Association-list model of Python dictionaries -/

/-- Dictionary lookup (`d.get(k)` / `d[k]` after a containment check). -/
def lookupKey {α : Type} (m : List (String × α)) (k : String) : Option α :=
  (m.find? (fun p => p.1 == k)).map (fun p => p.2)

/-- Dictionary assignment `d[k] = v`: replace in place when the key is
present (Python dicts keep insertion order), append otherwise. -/
def insertKey {α : Type} : List (String × α) → String → α → List (String × α)
  | [], k, v => [(k, v)]
  | p :: rest, k, v =>
      if p.1 == k then (k, v) :: rest else p :: insertKey rest k v

/-- Dictionary deletion `del d[k]` (a no-op when the key is absent). -/
def eraseKey {α : Type} : List (String × α) → String → List (String × α)
  | [], _ => []
  | p :: rest, k => if p.1 == k then rest else p :: eraseKey rest k

/-- Set insertion for `self.stats['unique_ips'].add(ip)`. -/
def insertUnique (l : List String) (x : String) : List String :=
  if l.contains x then l else l ++ [x]

/-- Python substring containment `sub in s`, on character lists. -/
def subOfChars (sub : List Char) : List Char → Bool
  | [] => sub.isEmpty
  | c :: rest => sub.isPrefixOf (c :: rest) || subOfChars sub rest

/-- Python substring containment `sub in k` on strings. -/
def strContains (k sub : String) : Bool :=
  subOfChars sub.toList k.toList

/-- Entry of a `self.request_history` deque.  The per-(ip, endpoint)
window deques hold bare float timestamps; the per-ip pattern-analysis
deques (keys `requests:{ip}`) hold `{'time': ..., 'endpoint': ...}`
records.  Both kinds live in the one `request_history` dictionary. -/
inductive HistEntry
  | stamp (t : ℚ)
  | req (t : ℚ) (endpoint : String)
  deriving Repr, DecidableEq

/-- Timestamp of an entry (`history[0]` as a float, or `r['time']`). -/
def HistEntry.ts : HistEntry → ℚ
  | .stamp t => t
  | .req t _ => t

/-- Endpoint of an entry (`r['endpoint']`; pattern-analysis keys only
ever hold `req` records, so the `stamp` case is unreachable there). -/
def HistEntry.ep : HistEntry → String
  | .stamp _ => ""
  | .req _ e => e

/-- Deque append honouring `maxlen`: when full, the oldest entry is
evicted from the front. -/
def appendCap {α : Type} (cap : ℕ) (l : List α) (x : α) : List α :=
  let l' := l ++ [x]
  if cap < l'.length then l'.drop (l'.length - cap) else l'

/-- Configuration (`self.config`, immutable after construction), with
the whitelist (`self.whitelist`) alongside.  Only the fields the
embedded methods read are modelled. -/
structure Config where
  ip_rate_limit : ℚ
  ip_burst : ℚ
  endpoint_limits : List (String × ℕ)
  block_threshold : ℕ
  block_duration : ℚ
  burst_threshold : ℕ
  whitelist : List String
  enable_pattern_detection : Bool
  enable_distributed_attack_detection : Bool
  enable_slowloris_protection : Bool
  deriving Repr, DecidableEq

/-- Mutable state of a `RateLimiter` instance. -/
structure RLState where
  config : Config
  ip_buckets : List (String × TokenBucket)
  request_history : List (String × List HistEntry)
  blocked_ips : List (String × ℚ)
  stats_total_requests : ℕ
  stats_blocked_requests : ℕ
  stats_rate_limited_requests : ℕ
  unique_ips : List String
  deriving Repr, DecidableEq

/-- Freshly constructed engine over a configuration: empty buckets,
history, blocklist and statistics. -/
def RLState.init (cfg : Config) : RLState :=
  { config := cfg, ip_buckets := [], request_history := [],
    blocked_ips := [], stats_total_requests := 0,
    stats_blocked_requests := 0, stats_rate_limited_requests := 0,
    unique_ips := [] }

/-- Embedding of `RateLimiter._is_blocked`: a live entry answers
`true`; an expired entry is removed (purge on read) and answers
`false`; the clock comparison never rewrites `blockedUntil`. -/
def is_blocked (st : RLState) (ip : String) (now : ℚ) : Bool × RLState :=
  match lookupKey st.blocked_ips ip with
  | some untilT =>
      if now < untilT then (true, st)
      else (false, { st with blocked_ips := eraseKey st.blocked_ips ip })
  | none => (false, st)

/-- Embedding of `RateLimiter._block_ip`: record
`blockedUntil = now + block_duration`. -/
def block_ip (st : RLState) (ip : String) (now : ℚ) : RLState :=
  { st with blocked_ips :=
      insertKey st.blocked_ips ip (now + st.config.block_duration) }

/-- The hard-coded `slow_endpoints` list of `_detect_attack_pattern`. -/
def slow_endpoints : List String :=
  ["/api/knowledge/search", "/api/logs/recent"]

/-- Embedding of `RateLimiter._detect_attack_pattern`: burst (more than
`burst_threshold` records in the last second), slowloris (more than 100
records to the slow endpoints in the last minute) and scanning (more
than 20 distinct endpoints in the last 10 seconds) heuristics, in the
source's order, over the already-recorded history. -/
def detect_attack_pattern (st : RLState) (ip endpoint : String) (now : ℚ) :
    Bool :=
  let history := (lookupKey st.request_history ("requests:" ++ ip)).getD []
  if history.isEmpty then false
  else if (history.filter (fun r => decide (now - 1 < r.ts))).length >
      st.config.burst_threshold then true
  else if st.config.enable_slowloris_protection &&
      slow_endpoints.contains endpoint &&
      decide ((history.filter (fun r =>
        decide (now - 60 < r.ts) && slow_endpoints.contains r.ep)).length > 100)
    then true
  else
    st.config.enable_distributed_attack_detection &&
    decide ((((history.filter (fun r => decide (now - 10 < r.ts))).map
      HistEntry.ep).dedup).length > 20)

/-- Embedding of `RateLimiter._should_block_ip`: more than
`block_threshold` recorded requests in the last minute. -/
def should_block_ip (st : RLState) (ip : String) (now : ℚ) : Bool :=
  let history := (lookupKey st.request_history ("requests:" ++ ip)).getD []
  if history.isEmpty then false
  else (history.filter (fun r => decide (now - 60 < r.ts))).length >
    st.config.block_threshold

/-- Embedding of `RateLimiter._get_ip_bucket`: fetch the ip's bucket,
creating a full one (capacity `ip_burst`, rate `ip_rate_limit`) on
first sight. -/
def get_ip_bucket (st : RLState) (ip : String) (now : ℚ) :
    TokenBucket × RLState :=
  match lookupKey st.ip_buckets ip with
  | some b => (b, st)
  | none =>
      let b := TokenBucket.init st.config.ip_burst st.config.ip_rate_limit now
      (b, { st with ip_buckets := insertKey st.ip_buckets ip b })

/-- Embedding of `RateLimiter._check_endpoint_limit` for the key
`"{ip}:{endpoint}"`: pop entries older than `now - 60` from the front
(the pops persist even on denial), deny when the trimmed queue has
reached `limit`, otherwise append `now` and allow.  The deque's
`maxlen=limit` never evicts here because appends only happen below
`limit`. -/
def check_endpoint_limit (st : RLState) (ip endpoint : String)
    (limit : ℕ) (now : ℚ) : Bool × RLState :=
  let key := ip ++ ":" ++ endpoint
  let history := (lookupKey st.request_history key).getD []
  let trimmed := history.dropWhile (fun e => decide (e.ts < now - 60))
  if limit ≤ trimmed.length then
    (false, { st with request_history := insertKey st.request_history key trimmed })
  else
    (true,
      { st with request_history :=
          insertKey st.request_history key (trimmed ++ [HistEntry.stamp now]) })

/-- Embedding of `RateLimiter._record_request`: append a
`{'time': now, 'endpoint': endpoint}` record to the `requests:{ip}`
deque (capacity 1000). -/
def record_request (st : RLState) (ip endpoint : String) (now : ℚ) : RLState :=
  let key := "requests:" ++ ip
  let history := (lookupKey st.request_history key).getD []
  let updated := insertKey st.request_history key
    (appendCap 1000 history (HistEntry.req now endpoint))
  { st with request_history := updated }

/-- Lines 181–196 of `RateLimiter.check_rate_limit` (the token-bucket
consume and its fallout), split out for modular reasoning: the bucket
mutation is stored back whatever the verdict; on failure the attempt is
recorded, the minute count checked against `block_threshold` and the
identity possibly blocked. -/
def crl_consume_stage (st4 : RLState) (bucket : TokenBucket)
    (client_ip endpoint : String) (now : ℚ) :
    (Bool × Option String) × RLState :=
  let cb := bucket.consume now 1
  let st5 := { st4 with
    ip_buckets := insertKey st4.ip_buckets client_ip cb.2 }
  if cb.1 then ((true, none), record_request st5 client_ip endpoint now)
  else
    let st6 := { st5 with stats_rate_limited_requests :=
        st5.stats_rate_limited_requests + 1 }
    let st7 := record_request st6 client_ip endpoint now
    if should_block_ip st7 client_ip now then
      ((false, some ("IP " ++ client_ip ++
          " blocked due to excessive requests")),
        block_ip st7 client_ip now)
    else
      ((false, some "Rate limit exceeded. Please slow down your requests."),
        st7)

/-- Lines 174–196 of `RateLimiter.check_rate_limit`: the
endpoint-specific check (`if endpoint_limit:` — a missing entry and a
configured limit of 0 are both falsy), then the consume stage. -/
def crl_endpoint_stage (st3 : RLState) (bucket : TokenBucket)
    (client_ip endpoint : String) (now : ℚ) :
    (Bool × Option String) × RLState :=
  let elimit := (lookupKey st3.config.endpoint_limits endpoint).getD 0
  let ec := if elimit ≠ 0 then
      check_endpoint_limit st3 client_ip endpoint elimit now
    else (true, st3)
  if ec.1 = false then
    ((false, some ("Endpoint rate limit exceeded for " ++ endpoint)),
      { ec.2 with stats_rate_limited_requests :=
          ec.2.stats_rate_limited_requests + 1 })
  else crl_consume_stage ec.2 bucket client_ip endpoint now

/-- Lines 165–196 of `RateLimiter.check_rate_limit`: the pattern
detector (escalating to a block on detection), then the bucket is
fetched or created and the remaining stages run. -/
def crl_pattern_stage (st2 : RLState) (client_ip endpoint : String)
    (now : ℚ) : (Bool × Option String) × RLState :=
  if st2.config.enable_pattern_detection &&
      detect_attack_pattern st2 client_ip endpoint now then
    ((false, some "Suspicious request pattern detected"),
      block_ip st2 client_ip now)
  else
    let gb := get_ip_bucket st2 client_ip now
    crl_endpoint_stage gb.2 gb.1 client_ip endpoint now

/-- Embedding of `RateLimiter.check_rate_limit`, with the client ip
taken as the already-extracted identity and every internal clock read
of the call modelled by the single reading `now`.  Returns the
`(allowed, reason)` pair and the new engine state.  The statistics
update precedes the whitelist check, as in the source. -/
def check_rate_limit (st : RLState) (client_ip endpoint : String) (now : ℚ) :
    (Bool × Option String) × RLState :=
  let st1 := { st with
    stats_total_requests := st.stats_total_requests + 1,
    unique_ips := insertUnique st.unique_ips client_ip }
  if st1.config.whitelist.contains client_ip then ((true, none), st1)
  else
    let rb := is_blocked st1 client_ip now
    if rb.1 then
      ((false, some ("IP " ++ client_ip ++
          " is temporarily blocked due to excessive requests")),
        { rb.2 with stats_blocked_requests := rb.2.stats_blocked_requests + 1 })
    else
      crl_pattern_stage rb.2 client_ip endpoint now

/-- Scalar fields of `RateLimiter.get_stats` (the nested `config` echo
of four immutable configuration values is not modelled). -/
structure Stats where
  total_requests : ℕ
  blocked_requests : ℕ
  rate_limited_requests : ℕ
  unique_ips : ℕ
  currently_blocked_ips : ℕ
  active_buckets : ℕ
  deriving Repr, DecidableEq

/-- Embedding of `RateLimiter.get_stats`. -/
def get_stats (st : RLState) : Stats :=
  { total_requests := st.stats_total_requests,
    blocked_requests := st.stats_blocked_requests,
    rate_limited_requests := st.stats_rate_limited_requests,
    unique_ips := st.unique_ips.length,
    currently_blocked_ips := st.blocked_ips.length,
    active_buckets := st.ip_buckets.length }

/-- Embedding of `RateLimiter.reset_ip`: delete the ip's blocklist
entry and token bucket by exact key, delete every `request_history`
entry whose key contains `ip` as a substring (`if ip in k`), and return
the unconditional success message. -/
def reset_ip (st : RLState) (ip : String) : String × RLState :=
  ("IP " ++ ip ++ " has been reset",
    { st with
      blocked_ips := eraseKey st.blocked_ips ip,
      ip_buckets := eraseKey st.ip_buckets ip,
      request_history :=
        st.request_history.filter (fun p => !(strContains p.1 ip)) })

/-! ## C2: the per-resource sliding window -/

/-- Statement of §4.2 of the specification in its own words, for the
refinement claim C2: drop from the front of the queue every timestamp
older than `now − 60`, then append `now` and answer true when the
remaining length is strictly below the limit, else answer false. -/
def slidingWindowSpec (q : List HistEntry) (now : ℚ) (limit : ℕ) :
    Bool × List HistEntry :=
  let dropped := q.dropWhile (fun e => decide (e.ts < now - 60))
  if dropped.length < limit then (true, dropped ++ [HistEntry.stamp now])
  else (false, dropped)

/-- Repeated calls of `_check_endpoint_limit` for one (ip, endpoint)
pair, one call per clock reading, collecting the verdicts. -/
def runEndpointCalls (st : RLState) (ip ep : String) (limit : ℕ) :
    List ℚ → List Bool
  | [] => []
  | t :: ts =>
      let r := check_endpoint_limit st ip ep limit t
      r.1 :: runEndpointCalls r.2 ip ep limit ts

/-- A bare engine state around a per-resource limit of 3 per minute,
used to exercise the sliding window on concrete traffic. -/
def windowDemoState : RLState :=
  RLState.init
    { ip_rate_limit := 30, ip_burst := 60,
      endpoint_limits := [("/api/knowledge/search", 3)],
      block_threshold := 1000, block_duration := 3600, burst_threshold := 50,
      whitelist := ["127.0.0.1"], enable_pattern_detection := true,
      enable_distributed_attack_detection := true,
      enable_slowloris_protection := true }

/-- The blocklist verdict of `_is_blocked` as a pure read (no purge):
true exactly when the identity has a live blocklist entry. -/
def blockedNow (st : RLState) (ip : String) (now : ℚ) : Bool :=
  match lookupKey st.blocked_ips ip with
  | some untilT => decide (now < untilT)
  | none => false

/-- Run one `check_rate_limit` call per clock reading for a fixed
identity and endpoint, collecting the allowed/denied verdicts and the
final engine state. -/
def runRequests (st : RLState) (ip ep : String) :
    List ℚ → List Bool × RLState
  | [] => ([], st)
  | t :: ts =>
      let r := check_rate_limit st ip ep t
      let rest := runRequests r.2 ip ep ts
      (r.1.1 :: rest.1, rest.2)

/-- A bare engine state with `burst_threshold = 1` and no endpoint
limits, used to exercise the burst heuristic on concrete traffic. -/
def burstDemoState : RLState :=
  RLState.init
    { ip_rate_limit := 30, ip_burst := 60, endpoint_limits := [],
      block_threshold := 1000, block_duration := 3600, burst_threshold := 1,
      whitelist := ["127.0.0.1"], enable_pattern_detection := true,
      enable_distributed_attack_detection := true,
      enable_slowloris_protection := true }

/-! ## Theorems -/

theorem consume_good {C R : ℚ} (hC : 0 ≤ C) (hR : 0 ≤ R)
    {b : TokenBucket} (hb : b.Good C R) {now : ℚ} (hnow : b.last_refill ≤ now)
    (n : ℕ) :
    (b.consume now n).2.Good C R ∧ (b.consume now n).2.last_refill = now := by
  obtain ⟨hcap, hrate, h0, h1⟩ := hb
  have helapsed : 0 ≤ (now - b.last_refill) * b.refill_rate := by
    apply mul_nonneg (by linarith) (by rw [hrate]; exact hR)
  have hre0 : 0 ≤ min b.capacity (b.tokens + (now - b.last_refill) * b.refill_rate) := by
    apply le_min (by rw [hcap]; exact hC) (by linarith)
  have hre1 : min b.capacity (b.tokens + (now - b.last_refill) * b.refill_rate) ≤ C := by
    calc min b.capacity (b.tokens + (now - b.last_refill) * b.refill_rate)
        ≤ b.capacity := min_le_left _ _
      _ = C := hcap
  unfold TokenBucket.consume TokenBucket.refill
  simp only []
  split
  · rename_i hge
    refine ⟨⟨hcap, hrate, ?_, ?_⟩, rfl⟩
    · simp only [] at hge ⊢
      have : (0 : ℚ) ≤ (n : ℚ) := Nat.cast_nonneg n
      linarith [hge]
    · have : (0 : ℚ) ≤ (n : ℚ) := Nat.cast_nonneg n
      simp only []
      linarith [hre1]
  · exact ⟨⟨hcap, hrate, hre0, hre1⟩, rfl⟩

theorem runConsumes_good {C R : ℚ} (hC : 0 ≤ C) (hR : 0 ≤ R) :
    ∀ (ops : List (ℚ × ℕ)) (b : TokenBucket), b.Good C R →
      timesMonoFrom b.last_refill ops = true →
      (runConsumes b ops).Good C R
  | [], _, hb, _ => hb
  | (t, n) :: rest, b, hb, hmono => by
    simp only [timesMonoFrom, Bool.and_eq_true, decide_eq_true_eq] at hmono
    obtain ⟨hle, hrest⟩ := hmono
    obtain ⟨hgood, hlast⟩ := consume_good hC hR hb hle n
    exact runConsumes_good hC hR rest _ hgood (by rw [hlast]; exact hrest)

/-- C1: a token bucket created with capacity `C` (and nonnegative refill
rate), subjected to any sequence of `consume(n)` calls at non-decreasing
clock readings, keeps its token count within `[0, C]`: `_refill` clamps
the count to `min(capacity, tokens + elapsed * refill_rate)` and
`consume` subtracts `n` only when at least `n` tokens are available. -/
theorem tokenBucket_invariant (C R t0 : ℚ) (ops : List (ℚ × ℕ))
    (hC : 0 ≤ C) (hR : 0 ≤ R) (hmono : timesMonoFrom t0 ops = true) :
    0 ≤ (runConsumes (TokenBucket.init C R t0) ops).tokens ∧
      (runConsumes (TokenBucket.init C R t0) ops).tokens ≤ C := by
  have hgood : (TokenBucket.init C R t0).Good C R :=
    ⟨rfl, rfl, hC, le_refl C⟩
  have := runConsumes_good hC hR ops (TokenBucket.init C R t0) hgood hmono
  exact ⟨this.2.2.1, this.2.2.2⟩

/-- Witness for C1 at a concrete run: capacity 10, refill rate 2,
consumes of 3, 100 and 1 tokens at clock readings 1, 2, 3. -/
theorem tokenBucket_invariant_witness :
    0 ≤ (runConsumes (TokenBucket.init 10 2 0) [(1, 3), (2, 100), (3, 1)]).tokens ∧
      (runConsumes (TokenBucket.init 10 2 0) [(1, 3), (2, 100), (3, 1)]).tokens ≤ 10 :=
  tokenBucket_invariant 10 2 0 [(1, 3), (2, 100), (3, 1)]
    (by norm_num) (by norm_num) (by norm_num [timesMonoFrom])

/-- C6: `_refill` does NOT clamp the elapsed time at zero.  On a
backward clock step the code drains the bucket: a bucket with capacity
10, refill rate 1, 5 tokens and `last_refill = 100`, refilled at clock
reading 90, ends with `min(10, 5 + (90 - 100) * 1) = -5` tokens — not
the unchanged 5 the specification requires, and outside `[0, capacity]`. -/
theorem refill_backward_clock_drains :
    (TokenBucket.refill
      { capacity := 10, refill_rate := 1, tokens := 5, last_refill := 100 }
      90).tokens = -5 ∧
    (TokenBucket.refill
      { capacity := 10, refill_rate := 1, tokens := 5, last_refill := 100 }
      90).tokens ≠ 5 := by
  constructor
  · norm_num [TokenBucket.refill]
  · norm_num [TokenBucket.refill]

@[simp] theorem lookupKey_nil {α : Type} (k : String) :
    lookupKey ([] : List (String × α)) k = none := rfl

theorem lookupKey_cons {α : Type} (p : String × α) (m : List (String × α))
    (k : String) :
    lookupKey (p :: m) k = if p.1 == k then some p.2 else lookupKey m k := by
  unfold lookupKey
  rw [List.find?]
  by_cases h : p.1 == k
  · rw [h]; simp
  · rw [Bool.not_eq_true] at h; rw [h]; simp [h]

@[simp] theorem lookupKey_insertKey_self {α : Type} (m : List (String × α))
    (k : String) (v : α) :
    lookupKey (insertKey m k v) k = some v := by
  induction m with
  | nil => simp [insertKey, lookupKey_cons]
  | cons p rest ih =>
      unfold insertKey
      by_cases h : p.1 == k
      · rw [h]; simp [lookupKey_cons]
      · rw [Bool.not_eq_true] at h
        rw [h]
        simp only [Bool.false_eq_true, if_false, lookupKey_cons, h]
        exact ih

theorem lookupKey_insertKey_ne {α : Type} (m : List (String × α))
    (k k' : String) (v : α) (h : k' ≠ k) :
    lookupKey (insertKey m k v) k' = lookupKey m k' := by
  induction m with
  | nil =>
      simp only [insertKey, lookupKey_cons, lookupKey_nil]
      rw [if_neg]
      simp only [beq_iff_eq]
      exact fun hk => h hk.symm
  | cons p rest ih =>
      unfold insertKey
      by_cases hp : p.1 == k
      · rw [hp]
        simp only [if_true, lookupKey_cons]
        rw [beq_iff_eq] at hp
        have : (k == k') = false := by
          simp only [beq_eq_false_iff_ne]
          exact fun hk => h hk.symm
        rw [this]
        simp only [Bool.false_eq_true, if_false]
        have h2 : (p.1 == k') = false := by
          simp only [beq_eq_false_iff_ne]
          rw [hp]
          exact fun hk => h hk.symm
        rw [h2]
        simp
      · rw [Bool.not_eq_true] at hp
        rw [hp]
        simp only [Bool.false_eq_true, if_false]
        rw [lookupKey_cons, lookupKey_cons, ih]

theorem lookupKey_eq_none_of_not_mem {α : Type} (m : List (String × α))
    (k : String) (h : k ∉ m.map Prod.fst) : lookupKey m k = none := by
  induction m with
  | nil => rfl
  | cons p rest ih =>
      rw [lookupKey_cons]
      simp only [List.map_cons, List.mem_cons, not_or] at h
      have hp : (p.1 == k) = false := by
        simp only [beq_eq_false_iff_ne]
        exact fun he => h.1 he.symm
      rw [hp]
      simp only [Bool.false_eq_true, if_false]
      exact ih h.2

theorem lookupKey_eraseKey_self {α : Type} (m : List (String × α))
    (k : String) (hnodup : (m.map Prod.fst).Nodup) :
    lookupKey (eraseKey m k) k = none := by
  induction m with
  | nil => rfl
  | cons p rest ih =>
      unfold eraseKey
      simp only [List.map_cons, List.nodup_cons] at hnodup
      by_cases hp : p.1 == k
      · rw [hp]
        simp only [if_true]
        rw [beq_iff_eq] at hp
        apply lookupKey_eq_none_of_not_mem
        rw [← hp]
        exact hnodup.1
      · rw [Bool.not_eq_true] at hp
        rw [hp]
        simp only [Bool.false_eq_true, if_false, lookupKey_cons, hp]
        exact ih hnodup.2

theorem lookupKey_eraseKey_ne {α : Type} (m : List (String × α))
    (k k' : String) (h : k' ≠ k) :
    lookupKey (eraseKey m k) k' = lookupKey m k' := by
  induction m with
  | nil => rfl
  | cons p rest ih =>
      unfold eraseKey
      by_cases hp : p.1 == k
      · rw [hp]
        simp only [if_true, lookupKey_cons]
        rw [beq_iff_eq] at hp
        have : (p.1 == k') = false := by
          simp only [beq_eq_false_iff_ne]
          rw [hp]
          exact fun hk => h hk.symm
        rw [this]
        simp
      · rw [Bool.not_eq_true] at hp
        rw [hp]
        simp only [Bool.false_eq_true, if_false, lookupKey_cons, ih]

/-! ## Engine state (`class RateLimiter`) -/

/-! ## Frame lemmas for the embedded methods -/

@[simp] theorem is_blocked_snd_config (s : RLState) (ip : String) (now : ℚ) :
    (is_blocked s ip now).2.config = s.config := by
  unfold is_blocked; split
  · split <;> rfl
  · rfl

@[simp] theorem is_blocked_snd_stats_total (s : RLState) (ip : String) (now : ℚ) :
    (is_blocked s ip now).2.stats_total_requests = s.stats_total_requests := by
  unfold is_blocked; split
  · split <;> rfl
  · rfl

@[simp] theorem is_blocked_snd_stats_blocked (s : RLState) (ip : String) (now : ℚ) :
    (is_blocked s ip now).2.stats_blocked_requests = s.stats_blocked_requests := by
  unfold is_blocked; split
  · split <;> rfl
  · rfl

@[simp] theorem is_blocked_snd_stats_rate (s : RLState) (ip : String) (now : ℚ) :
    (is_blocked s ip now).2.stats_rate_limited_requests =
      s.stats_rate_limited_requests := by
  unfold is_blocked; split
  · split <;> rfl
  · rfl

@[simp] theorem is_blocked_snd_unique (s : RLState) (ip : String) (now : ℚ) :
    (is_blocked s ip now).2.unique_ips = s.unique_ips := by
  unfold is_blocked; split
  · split <;> rfl
  · rfl

@[simp] theorem is_blocked_snd_buckets (s : RLState) (ip : String) (now : ℚ) :
    (is_blocked s ip now).2.ip_buckets = s.ip_buckets := by
  unfold is_blocked; split
  · split <;> rfl
  · rfl

@[simp] theorem is_blocked_snd_history (s : RLState) (ip : String) (now : ℚ) :
    (is_blocked s ip now).2.request_history = s.request_history := by
  unfold is_blocked; split
  · split <;> rfl
  · rfl

@[simp] theorem block_ip_config (s : RLState) (ip : String) (now : ℚ) :
    (block_ip s ip now).config = s.config := rfl

@[simp] theorem block_ip_stats_total (s : RLState) (ip : String) (now : ℚ) :
    (block_ip s ip now).stats_total_requests = s.stats_total_requests := rfl

@[simp] theorem block_ip_stats_blocked (s : RLState) (ip : String) (now : ℚ) :
    (block_ip s ip now).stats_blocked_requests = s.stats_blocked_requests := rfl

@[simp] theorem block_ip_stats_rate (s : RLState) (ip : String) (now : ℚ) :
    (block_ip s ip now).stats_rate_limited_requests =
      s.stats_rate_limited_requests := rfl

@[simp] theorem block_ip_history (s : RLState) (ip : String) (now : ℚ) :
    (block_ip s ip now).request_history = s.request_history := rfl

@[simp] theorem block_ip_buckets (s : RLState) (ip : String) (now : ℚ) :
    (block_ip s ip now).ip_buckets = s.ip_buckets := rfl

@[simp] theorem block_ip_unique (s : RLState) (ip : String) (now : ℚ) :
    (block_ip s ip now).unique_ips = s.unique_ips := rfl

@[simp] theorem get_ip_bucket_config (s : RLState) (ip : String) (now : ℚ) :
    (get_ip_bucket s ip now).2.config = s.config := by
  unfold get_ip_bucket; split <;> rfl

@[simp] theorem get_ip_bucket_stats_total (s : RLState) (ip : String) (now : ℚ) :
    (get_ip_bucket s ip now).2.stats_total_requests = s.stats_total_requests := by
  unfold get_ip_bucket; split <;> rfl

@[simp] theorem get_ip_bucket_stats_blocked (s : RLState) (ip : String) (now : ℚ) :
    (get_ip_bucket s ip now).2.stats_blocked_requests =
      s.stats_blocked_requests := by
  unfold get_ip_bucket; split <;> rfl

@[simp] theorem get_ip_bucket_stats_rate (s : RLState) (ip : String) (now : ℚ) :
    (get_ip_bucket s ip now).2.stats_rate_limited_requests =
      s.stats_rate_limited_requests := by
  unfold get_ip_bucket; split <;> rfl

@[simp] theorem get_ip_bucket_history (s : RLState) (ip : String) (now : ℚ) :
    (get_ip_bucket s ip now).2.request_history = s.request_history := by
  unfold get_ip_bucket; split <;> rfl

@[simp] theorem get_ip_bucket_blocked (s : RLState) (ip : String) (now : ℚ) :
    (get_ip_bucket s ip now).2.blocked_ips = s.blocked_ips := by
  unfold get_ip_bucket; split <;> rfl

@[simp] theorem get_ip_bucket_unique (s : RLState) (ip : String) (now : ℚ) :
    (get_ip_bucket s ip now).2.unique_ips = s.unique_ips := by
  unfold get_ip_bucket; split <;> rfl

@[simp] theorem check_endpoint_limit_config (s : RLState) (ip ep : String)
    (limit : ℕ) (now : ℚ) :
    (check_endpoint_limit s ip ep limit now).2.config = s.config := by
  unfold check_endpoint_limit; dsimp only; split <;> rfl

@[simp] theorem check_endpoint_limit_stats_total (s : RLState) (ip ep : String)
    (limit : ℕ) (now : ℚ) :
    (check_endpoint_limit s ip ep limit now).2.stats_total_requests =
      s.stats_total_requests := by
  unfold check_endpoint_limit; dsimp only; split <;> rfl

@[simp] theorem check_endpoint_limit_stats_blocked (s : RLState) (ip ep : String)
    (limit : ℕ) (now : ℚ) :
    (check_endpoint_limit s ip ep limit now).2.stats_blocked_requests =
      s.stats_blocked_requests := by
  unfold check_endpoint_limit; dsimp only; split <;> rfl

@[simp] theorem check_endpoint_limit_stats_rate (s : RLState) (ip ep : String)
    (limit : ℕ) (now : ℚ) :
    (check_endpoint_limit s ip ep limit now).2.stats_rate_limited_requests =
      s.stats_rate_limited_requests := by
  unfold check_endpoint_limit; dsimp only; split <;> rfl

@[simp] theorem check_endpoint_limit_buckets (s : RLState) (ip ep : String)
    (limit : ℕ) (now : ℚ) :
    (check_endpoint_limit s ip ep limit now).2.ip_buckets = s.ip_buckets := by
  unfold check_endpoint_limit; dsimp only; split <;> rfl

@[simp] theorem check_endpoint_limit_blocked_ips (s : RLState) (ip ep : String)
    (limit : ℕ) (now : ℚ) :
    (check_endpoint_limit s ip ep limit now).2.blocked_ips = s.blocked_ips := by
  unfold check_endpoint_limit; dsimp only; split <;> rfl

@[simp] theorem check_endpoint_limit_unique (s : RLState) (ip ep : String)
    (limit : ℕ) (now : ℚ) :
    (check_endpoint_limit s ip ep limit now).2.unique_ips = s.unique_ips := by
  unfold check_endpoint_limit; dsimp only; split <;> rfl

@[simp] theorem record_request_config (s : RLState) (ip ep : String) (now : ℚ) :
    (record_request s ip ep now).config = s.config := rfl

@[simp] theorem record_request_stats_total (s : RLState) (ip ep : String) (now : ℚ) :
    (record_request s ip ep now).stats_total_requests = s.stats_total_requests := rfl

@[simp] theorem record_request_stats_blocked (s : RLState) (ip ep : String) (now : ℚ) :
    (record_request s ip ep now).stats_blocked_requests =
      s.stats_blocked_requests := rfl

@[simp] theorem record_request_stats_rate (s : RLState) (ip ep : String) (now : ℚ) :
    (record_request s ip ep now).stats_rate_limited_requests =
      s.stats_rate_limited_requests := rfl

@[simp] theorem record_request_buckets (s : RLState) (ip ep : String) (now : ℚ) :
    (record_request s ip ep now).ip_buckets = s.ip_buckets := rfl

@[simp] theorem record_request_blocked_ips (s : RLState) (ip ep : String) (now : ℚ) :
    (record_request s ip ep now).blocked_ips = s.blocked_ips := rfl

@[simp] theorem record_request_unique (s : RLState) (ip ep : String) (now : ℚ) :
    (record_request s ip ep now).unique_ips = s.unique_ips := rfl

theorem lookupKey_eraseKey_sub {α : Type} (m : List (String × α))
    (k' : String) (hnodup : (m.map Prod.fst).Nodup) (k : String) (v : α)
    (h : lookupKey (eraseKey m k') k = some v) : lookupKey m k = some v := by
  by_cases hk : k = k'
  · rw [hk, lookupKey_eraseKey_self m k' hnodup] at h
    cases h
  · rw [lookupKey_eraseKey_ne m k' k hk] at h
    exact h

theorem is_blocked_fst (s : RLState) (ip : String) (now : ℚ) :
    (is_blocked s ip now).1 = blockedNow s ip now := by
  unfold is_blocked blockedNow
  cases h : lookupKey s.blocked_ips ip
  · rfl
  · rename_i u
    dsimp only
    by_cases hlt : now < u
    · rw [if_pos hlt]; simp [hlt]
    · rw [if_neg hlt]; simp [hlt]

theorem detect_attack_pattern_congr {s s' : RLState} (ip ep : String)
    (now : ℚ) (hh : s'.request_history = s.request_history)
    (hc : s'.config = s.config) :
    detect_attack_pattern s' ip ep now = detect_attack_pattern s ip ep now := by
  unfold detect_attack_pattern
  rw [hh, hc]

theorem check_endpoint_limit_eq (st : RLState) (ip ep : String) (limit : ℕ)
    (now : ℚ) :
    check_endpoint_limit st ip ep limit now =
      ((slidingWindowSpec
          ((lookupKey st.request_history (ip ++ ":" ++ ep)).getD [])
          now limit).1,
        { st with request_history :=
            (insertKey st.request_history (ip ++ ":" ++ ep)
              (slidingWindowSpec
                ((lookupKey st.request_history (ip ++ ":" ++ ep)).getD [])
                now limit).2) }) := by
  unfold check_endpoint_limit slidingWindowSpec
  dsimp only
  by_cases h : limit ≤
      (((lookupKey st.request_history (ip ++ ":" ++ ep)).getD []).dropWhile
        (fun e => decide (e.ts < now - 60))).length
  · rw [if_pos h, if_neg (not_lt.mpr h)]
  · rw [if_neg h, if_pos (not_le.mp h)]

theorem slidingWindowSpec_snd_of_true (q : List HistEntry) (now : ℚ) (l : ℕ)
    (h : (slidingWindowSpec q now l).1 = true) :
    (slidingWindowSpec q now l).2 =
      q.dropWhile (fun e => decide (e.ts < now - 60)) ++ [HistEntry.stamp now] := by
  unfold slidingWindowSpec at h ⊢
  dsimp only at h ⊢
  by_cases hl : (q.dropWhile (fun e => decide (e.ts < now - 60))).length < l
  · rw [if_pos hl]
  · rw [if_neg hl] at h
    simp at h

theorem crl_to_pattern_stage (st : RLState) (ip ep : String) (now : ℚ)
    (hw : st.config.whitelist.contains ip = false)
    (hB : blockedNow st ip now = false) :
    check_rate_limit st ip ep now =
      crl_pattern_stage
        (is_blocked
          { st with stats_total_requests := st.stats_total_requests + 1,
                    unique_ips := insertUnique st.unique_ips ip } ip now).2
        ip ep now := by
  unfold check_rate_limit
  dsimp only
  rw [hw]
  simp only [Bool.false_eq_true, if_false]
  rw [is_blocked_fst]
  have hB1 : blockedNow
      { st with stats_total_requests := st.stats_total_requests + 1,
                unique_ips := insertUnique st.unique_ips ip } ip now = false := hB
  rw [hB1]
  simp only [Bool.false_eq_true, if_false]

theorem pattern_stage_attack (st2 : RLState) (ip ep : String) (now : ℚ)
    (h : (st2.config.enable_pattern_detection &&
      detect_attack_pattern st2 ip ep now) = true) :
    crl_pattern_stage st2 ip ep now =
      ((false, some "Suspicious request pattern detected"),
        block_ip st2 ip now) := by
  unfold crl_pattern_stage
  rw [h]
  rfl

theorem pattern_stage_pass (st2 : RLState) (ip ep : String) (now : ℚ)
    (h : (st2.config.enable_pattern_detection &&
      detect_attack_pattern st2 ip ep now) = false) :
    crl_pattern_stage st2 ip ep now =
      crl_endpoint_stage (get_ip_bucket st2 ip now).2
        (get_ip_bucket st2 ip now).1 ip ep now := by
  unfold crl_pattern_stage
  rw [h]
  rfl

theorem endpoint_stage_skip (st3 : RLState) (bucket : TokenBucket)
    (ip ep : String) (now : ℚ)
    (h : (lookupKey st3.config.endpoint_limits ep).getD 0 = 0) :
    crl_endpoint_stage st3 bucket ip ep now =
      crl_consume_stage st3 bucket ip ep now := by
  unfold crl_endpoint_stage
  dsimp only
  rw [h]
  rw [if_neg (fun hh : (0 : ℕ) ≠ 0 => hh rfl)]
  dsimp only
  rw [if_neg (by simp : ¬ (true = false))]

theorem endpoint_stage_deny (st3 : RLState) (bucket : TokenBucket)
    (ip ep : String) (now : ℚ) (l : ℕ)
    (hl : (lookupKey st3.config.endpoint_limits ep).getD 0 = l) (h0 : l ≠ 0)
    (hdeny : (slidingWindowSpec
        ((lookupKey st3.request_history (ip ++ ":" ++ ep)).getD [])
        now l).1 = false) :
    crl_endpoint_stage st3 bucket ip ep now =
      ((false, some ("Endpoint rate limit exceeded for " ++ ep)),
        { st3 with
          request_history := (insertKey st3.request_history (ip ++ ":" ++ ep)
            (slidingWindowSpec
              ((lookupKey st3.request_history (ip ++ ":" ++ ep)).getD [])
              now l).2),
          stats_rate_limited_requests := st3.stats_rate_limited_requests + 1 }) := by
  unfold crl_endpoint_stage
  dsimp only
  rw [hl, if_pos h0, check_endpoint_limit_eq]
  dsimp only
  rw [hdeny]
  rw [if_pos rfl]

theorem endpoint_stage_pass (st3 : RLState) (bucket : TokenBucket)
    (ip ep : String) (now : ℚ) (l : ℕ)
    (hl : (lookupKey st3.config.endpoint_limits ep).getD 0 = l) (h0 : l ≠ 0)
    (hok : (slidingWindowSpec
        ((lookupKey st3.request_history (ip ++ ":" ++ ep)).getD [])
        now l).1 = true) :
    crl_endpoint_stage st3 bucket ip ep now =
      crl_consume_stage
        { st3 with request_history :=
            (insertKey st3.request_history (ip ++ ":" ++ ep)
              (slidingWindowSpec
                ((lookupKey st3.request_history (ip ++ ":" ++ ep)).getD [])
                now l).2) }
        bucket ip ep now := by
  unfold crl_endpoint_stage
  dsimp only
  rw [hl, if_pos h0, check_endpoint_limit_eq]
  dsimp only
  rw [hok]
  rw [if_neg (by simp : ¬ (true = false))]

theorem record_request_history_congr {s s' : RLState} (ip ep : String)
    (now : ℚ) (hh : s'.request_history = s.request_history) :
    (record_request s' ip ep now).request_history =
      (record_request s ip ep now).request_history := by
  unfold record_request
  dsimp only
  rw [hh]

theorem consume_stage_history (st4 : RLState) (bucket : TokenBucket)
    (ip ep : String) (now : ℚ) :
    (crl_consume_stage st4 bucket ip ep now).2.request_history =
      (record_request st4 ip ep now).request_history := by
  unfold crl_consume_stage
  dsimp only
  split
  · exact record_request_history_congr ip ep now rfl
  · split
    · rw [block_ip_history]
      exact record_request_history_congr ip ep now rfl
    · exact record_request_history_congr ip ep now rfl

theorem record_request_lookup (s : RLState) (ip ep : String) (now : ℚ) :
    lookupKey (record_request s ip ep now).request_history
        ("requests:" ++ ip) =
      some (appendCap 1000
        ((lookupKey s.request_history ("requests:" ++ ip)).getD [])
        (HistEntry.req now ep)) := by
  unfold record_request
  dsimp only
  exact lookupKey_insertKey_self _ _ _

theorem record_request_lookup_ne (s : RLState) (ip ep k : String) (now : ℚ)
    (hk : k ≠ "requests:" ++ ip) :
    lookupKey (record_request s ip ep now).request_history k =
      lookupKey s.request_history k := by
  unfold record_request
  dsimp only
  exact lookupKey_insertKey_ne _ _ _ _ hk

theorem consume_stage_verdicts (st4 : RLState) (bucket : TokenBucket)
    (ip ep : String) (now : ℚ) :
    ((crl_consume_stage st4 bucket ip ep now).1 = (true, none) ∧
      (crl_consume_stage st4 bucket ip ep now).2.stats_rate_limited_requests =
        st4.stats_rate_limited_requests ∧
      (crl_consume_stage st4 bucket ip ep now).2.stats_blocked_requests =
        st4.stats_blocked_requests ∧
      (crl_consume_stage st4 bucket ip ep now).2.stats_total_requests =
        st4.stats_total_requests) ∨
    (((crl_consume_stage st4 bucket ip ep now).1 =
        (false, some ("IP " ++ ip ++ " blocked due to excessive requests")) ∨
      (crl_consume_stage st4 bucket ip ep now).1 =
        (false, some "Rate limit exceeded. Please slow down your requests.")) ∧
      (crl_consume_stage st4 bucket ip ep now).2.stats_rate_limited_requests =
        st4.stats_rate_limited_requests + 1 ∧
      (crl_consume_stage st4 bucket ip ep now).2.stats_blocked_requests =
        st4.stats_blocked_requests ∧
      (crl_consume_stage st4 bucket ip ep now).2.stats_total_requests =
        st4.stats_total_requests) := by
  unfold crl_consume_stage
  dsimp only
  split
  · left
    exact ⟨rfl, by simp, by simp, by simp⟩
  · split
    · right
      exact ⟨Or.inl rfl, by simp, by simp, by simp⟩
    · right
      exact ⟨Or.inr rfl, by simp, by simp, by simp⟩

theorem crl_whitelist_eq (st : RLState) (ip ep : String) (now : ℚ)
    (h : st.config.whitelist.contains ip = true) :
    check_rate_limit st ip ep now =
      ((true, none),
        { st with stats_total_requests := st.stats_total_requests + 1,
                  unique_ips := insertUnique st.unique_ips ip }) := by
  unfold check_rate_limit
  dsimp only
  rw [h]
  simp only [if_true]

theorem crl_blocked_eq (st : RLState) (ip ep : String) (now untilT : ℚ)
    (hw : st.config.whitelist.contains ip = false)
    (hb : lookupKey st.blocked_ips ip = some untilT) (hnow : now < untilT) :
    check_rate_limit st ip ep now =
      ((false, some ("IP " ++ ip ++
          " is temporarily blocked due to excessive requests")),
        { st with stats_total_requests := st.stats_total_requests + 1,
                  stats_blocked_requests := st.stats_blocked_requests + 1,
                  unique_ips := insertUnique st.unique_ips ip }) := by
  unfold check_rate_limit is_blocked
  dsimp only
  rw [hw]
  simp only [Bool.false_eq_true, if_false]
  rw [hb]
  dsimp only
  rw [if_pos hnow]
  dsimp only
  rw [if_pos rfl]

theorem crl_blocked_fst (st : RLState) (ip ep : String) (now untilT : ℚ)
    (hw : st.config.whitelist.contains ip = false)
    (hb : lookupKey st.blocked_ips ip = some untilT) (hnow : now < untilT) :
    (check_rate_limit st ip ep now).1 =
      (false, some ("IP " ++ ip ++
        " is temporarily blocked due to excessive requests")) := by
  rw [crl_blocked_eq st ip ep now untilT hw hb hnow]

theorem detect_of_burst (st : RLState) (ip ep : String) (now : ℚ)
    (h : (((lookupKey st.request_history ("requests:" ++ ip)).getD []).filter
      (fun r => decide (now - 1 < r.ts))).length > st.config.burst_threshold) :
    detect_attack_pattern st ip ep now = true := by
  have hne : ((lookupKey st.request_history ("requests:" ++ ip)).getD []).isEmpty
      = false := by
    cases hh : (lookupKey st.request_history ("requests:" ++ ip)).getD [] with
    | nil => rw [hh] at h; simp at h
    | cons a l => rfl
  unfold detect_attack_pattern
  dsimp only
  rw [hne]
  simp only [Bool.false_eq_true, if_false]
  rw [if_pos h]

/-- C2: `_check_endpoint_limit` implements the exact sliding window of
§4.2 — its verdict and the queue it stores for the (ip, endpoint) key
are those of the spec-worded algorithm (trim the front below
`now − 60`, allow and append exactly when the trimmed length is
strictly below the limit) — and, concretely for limit `L = 3`: of
`2L = 6` calls inside one 60-second window the calls `L+1 .. 2L` are
denied, while a call `L+1` issued 61 seconds after call 1 is allowed
again (exact sliding window, not a fixed bucket). -/
theorem endpoint_window_exact :
    (∀ (st : RLState) (ip ep : String) (limit : ℕ) (now : ℚ),
      (check_endpoint_limit st ip ep limit now).1 =
        (slidingWindowSpec
          ((lookupKey st.request_history (ip ++ ":" ++ ep)).getD [])
          now limit).1 ∧
      lookupKey (check_endpoint_limit st ip ep limit now).2.request_history
          (ip ++ ":" ++ ep) =
        some (slidingWindowSpec
          ((lookupKey st.request_history (ip ++ ":" ++ ep)).getD [])
          now limit).2) ∧
    runEndpointCalls windowDemoState "9.9.9.9" "/api/knowledge/search" 3
        [0, 0, 0, 0, 0, 0] =
      [true, true, true, false, false, false] ∧
    runEndpointCalls windowDemoState "9.9.9.9" "/api/knowledge/search" 3
        [0, 0, 0, 61] =
      [true, true, true, true] := by
  refine ⟨?_, ?_, ?_⟩
  · intro st ip ep limit now
    unfold check_endpoint_limit slidingWindowSpec
    dsimp only
    by_cases h : limit ≤
        (((lookupKey st.request_history (ip ++ ":" ++ ep)).getD []).dropWhile
          (fun e => decide (e.ts < now - 60))).length
    · rw [if_pos h, if_neg (not_lt.mpr h)]
      exact ⟨rfl, lookupKey_insertKey_self _ _ _⟩
    · rw [if_neg h, if_pos (not_le.mp h)]
      exact ⟨rfl, lookupKey_insertKey_self _ _ _⟩
  · norm_num [runEndpointCalls, check_endpoint_limit, windowDemoState,
      RLState.init, insertKey, lookupKey_cons, HistEntry.ts, List.dropWhile]
  · norm_num [runEndpointCalls, check_endpoint_limit, windowDemoState,
      RLState.init, insertKey, lookupKey_cons, HistEntry.ts, List.dropWhile]

/-! ## C3: blocklist semantics -/

/-- C3: with an uncorrupted blocklist (distinct keys) and a
non-whitelisted identity that has a blocklist entry `untilT`:
while `now < untilT` the call is denied with the "temporarily blocked"
reason no matter what the other checks would say, and the blocklist
(in particular `untilT`) is left untouched; once `untilT ≤ now`, the
presence check purges the entry and answers false; and the presence
check never rewrites any entry — every surviving entry kept its value
(a block is never silently extended).  The non-whitelist hypothesis is
harmless: the engine only ever blocks identities that failed the
whitelist check, so no reachable blocklist contains a whitelisted
identity. -/
theorem blocklist_hard_deny (st : RLState) (ip ep : String) (now untilT : ℚ)
    (hw : st.config.whitelist.contains ip = false)
    (hb : lookupKey st.blocked_ips ip = some untilT)
    (hnodup : (st.blocked_ips.map Prod.fst).Nodup) :
    (now < untilT →
      check_rate_limit st ip ep now =
        ((false, some ("IP " ++ ip ++
            " is temporarily blocked due to excessive requests")),
          { st with stats_total_requests := st.stats_total_requests + 1,
                    stats_blocked_requests := st.stats_blocked_requests + 1,
                    unique_ips := insertUnique st.unique_ips ip })) ∧
    (untilT ≤ now →
      is_blocked st ip now =
        (false, { st with blocked_ips := eraseKey st.blocked_ips ip })) ∧
    (∀ k v, lookupKey (is_blocked st ip now).2.blocked_ips k = some v →
      lookupKey st.blocked_ips k = some v) := by
  refine ⟨?_, ?_, ?_⟩
  · intro hnow
    unfold check_rate_limit is_blocked
    dsimp only
    rw [hw]
    simp only [Bool.false_eq_true, if_false]
    rw [hb]
    dsimp only
    rw [if_pos hnow]
    dsimp only
    rw [if_pos rfl]
  · intro hge
    unfold is_blocked
    rw [hb]
    dsimp only
    rw [if_neg (not_lt.mpr hge)]
  · intro k v h
    unfold is_blocked at h
    rw [hb] at h
    dsimp only at h
    by_cases hnow : now < untilT
    · rw [if_pos hnow] at h
      exact h
    · rw [if_neg hnow] at h
      exact lookupKey_eraseKey_sub st.blocked_ips ip hnodup k v h

/-- Witness for C3: a concrete blocked, non-whitelisted identity. -/
theorem blocklist_hard_deny_witness :
    (((10 : ℚ) < 500 →
      check_rate_limit
        { config :=
            { ip_rate_limit := 30, ip_burst := 60, endpoint_limits := [],
              block_threshold := 1000, block_duration := 3600,
              burst_threshold := 50, whitelist := ["127.0.0.1"],
              enable_pattern_detection := true,
              enable_distributed_attack_detection := true,
              enable_slowloris_protection := true },
          ip_buckets := [], request_history := [],
          blocked_ips := [("9.9.9.9", 500)], stats_total_requests := 0,
          stats_blocked_requests := 0, stats_rate_limited_requests := 0,
          unique_ips := [] } "9.9.9.9" "/api/x" 10 =
        ((false, some ("IP " ++ "9.9.9.9" ++
            " is temporarily blocked due to excessive requests")),
          { config :=
              { ip_rate_limit := 30, ip_burst := 60, endpoint_limits := [],
                block_threshold := 1000, block_duration := 3600,
                burst_threshold := 50, whitelist := ["127.0.0.1"],
                enable_pattern_detection := true,
                enable_distributed_attack_detection := true,
                enable_slowloris_protection := true },
            ip_buckets := [], request_history := [],
            blocked_ips := [("9.9.9.9", 500)], stats_total_requests := 0 + 1,
            stats_blocked_requests := 0 + 1, stats_rate_limited_requests := 0,
            unique_ips := insertUnique [] "9.9.9.9" })) ∧ True) := by
  constructor
  · exact fun h =>
      ((blocklist_hard_deny _ "9.9.9.9" "/api/x" 10 500 (by decide)
        (by norm_num [lookupKey_cons]) (by simp)).1 h)
  · trivial

/-! ## C4: whitelisted identities -/

/-- Amended C4: a call for a whitelisted identity always returns Allow
with no reason, leaves the token buckets, request histories, blocklist,
blocked and rate-limited counters untouched, but DOES update the
statistics: `totalRequests` is incremented and the identity is added to
the unique-identity set (both happen before the whitelist check). -/
theorem whitelist_allow_frame (st : RLState) (ip ep : String) (now : ℚ)
    (h : st.config.whitelist.contains ip = true) :
    check_rate_limit st ip ep now =
      ((true, none),
        { st with stats_total_requests := st.stats_total_requests + 1,
                  unique_ips := insertUnique st.unique_ips ip }) := by
  unfold check_rate_limit
  dsimp only
  rw [h]
  simp only [if_true]

/-- Witness for the amended C4 at a concrete whitelisted call. -/
theorem whitelist_allow_frame_witness :
    check_rate_limit (RLState.init
      { ip_rate_limit := 30, ip_burst := 60, endpoint_limits := [],
        block_threshold := 1000, block_duration := 3600, burst_threshold := 50,
        whitelist := ["127.0.0.1"], enable_pattern_detection := true,
        enable_distributed_attack_detection := true,
        enable_slowloris_protection := true }) "127.0.0.1" "/api/x" 5 =
      ((true, none),
        { RLState.init
            { ip_rate_limit := 30, ip_burst := 60, endpoint_limits := [],
              block_threshold := 1000, block_duration := 3600,
              burst_threshold := 50, whitelist := ["127.0.0.1"],
              enable_pattern_detection := true,
              enable_distributed_attack_detection := true,
              enable_slowloris_protection := true } with
          stats_total_requests := 0 + 1,
          unique_ips := insertUnique [] "127.0.0.1" }) :=
  whitelist_allow_frame _ "127.0.0.1" "/api/x" 5 (by decide)

/-- C4 counterexample: the claim "no engine state is updated" fails —
for the concrete whitelisted call of the witness the `totalRequests`
counter changes from 0 to 1. -/
theorem whitelist_updates_total_requests :
    (check_rate_limit (RLState.init
      { ip_rate_limit := 30, ip_burst := 60, endpoint_limits := [],
        block_threshold := 1000, block_duration := 3600, burst_threshold := 50,
        whitelist := ["127.0.0.1"], enable_pattern_detection := true,
        enable_distributed_attack_detection := true,
        enable_slowloris_protection := true }) "127.0.0.1" "/api/x" 5
      ).2.stats_total_requests ≠ 0 := by
  unfold check_rate_limit
  dsimp only [RLState.init]
  rw [show (["127.0.0.1"] : List String).contains "127.0.0.1" = true from by decide]
  simp only [if_true]
  norm_num

/-! ## C9: the window slot is consumed before the bucket is consulted -/

/-- C9: for a request that passes the whitelist, blocklist and pattern
checks and targets a resource with a configured (nonzero) per-minute
limit whose window still has room, the current timestamp is appended to
the per-(ip, endpoint) window queue whatever the token bucket then
says — a request later denied by the bucket has still used up a slot.
The stored queue is the trimmed queue plus `now`. -/
theorem window_slot_spent_before_bucket (st : RLState) (ip ep : String)
    (now : ℚ) (l : ℕ)
    (hw : st.config.whitelist.contains ip = false)
    (hB : blockedNow st ip now = false)
    (hD : (st.config.enable_pattern_detection &&
      detect_attack_pattern st ip ep now) = false)
    (hl : (lookupKey st.config.endpoint_limits ep).getD 0 = l) (h0 : l ≠ 0)
    (hwin : (slidingWindowSpec
      ((lookupKey st.request_history (ip ++ ":" ++ ep)).getD [])
      now l).1 = true)
    (hkey : (ip ++ ":" ++ ep) ≠ ("requests:" ++ ip)) :
    lookupKey (check_rate_limit st ip ep now).2.request_history
        (ip ++ ":" ++ ep) =
      some ((((lookupKey st.request_history (ip ++ ":" ++ ep)).getD
          []).dropWhile (fun e => decide (e.ts < now - 60))) ++
        [HistEntry.stamp now]) := by
  rw [crl_to_pattern_stage st ip ep now hw hB]
  have hx1 : (is_blocked
      { st with stats_total_requests := st.stats_total_requests + 1,
                unique_ips := insertUnique st.unique_ips ip }
      ip now).2.request_history = st.request_history := by simp
  have hx2 : (is_blocked
      { st with stats_total_requests := st.stats_total_requests + 1,
                unique_ips := insertUnique st.unique_ips ip }
      ip now).2.config = st.config := by simp
  have hD2 : ((is_blocked
      { st with stats_total_requests := st.stats_total_requests + 1,
                unique_ips := insertUnique st.unique_ips ip }
      ip now).2.config.enable_pattern_detection &&
      detect_attack_pattern (is_blocked
        { st with stats_total_requests := st.stats_total_requests + 1,
                  unique_ips := insertUnique st.unique_ips ip }
        ip now).2 ip ep now) = false := by
    rw [hx2, detect_attack_pattern_congr ip ep now hx1 hx2]
    exact hD
  rw [pattern_stage_pass _ _ _ _ hD2]
  have hx3 : (get_ip_bucket (is_blocked
      { st with stats_total_requests := st.stats_total_requests + 1,
                unique_ips := insertUnique st.unique_ips ip }
      ip now).2 ip now).2.config = st.config := by simp
  have hx4 : (get_ip_bucket (is_blocked
      { st with stats_total_requests := st.stats_total_requests + 1,
                unique_ips := insertUnique st.unique_ips ip }
      ip now).2 ip now).2.request_history = st.request_history := by simp
  have hl3 : (lookupKey (get_ip_bucket (is_blocked
      { st with stats_total_requests := st.stats_total_requests + 1,
                unique_ips := insertUnique st.unique_ips ip }
      ip now).2 ip now).2.config.endpoint_limits ep).getD 0 = l := by
    rw [hx3]; exact hl
  have hwin3 : (slidingWindowSpec
      ((lookupKey (get_ip_bucket (is_blocked
        { st with stats_total_requests := st.stats_total_requests + 1,
                  unique_ips := insertUnique st.unique_ips ip }
        ip now).2 ip now).2.request_history (ip ++ ":" ++ ep)).getD [])
      now l).1 = true := by
    rw [hx4]; exact hwin
  rw [endpoint_stage_pass _ _ _ _ _ _ hl3 h0 hwin3]
  rw [consume_stage_history]
  rw [record_request_lookup_ne _ _ _ _ _ hkey]
  dsimp only
  rw [lookupKey_insertKey_self]
  rw [slidingWindowSpec_snd_of_true _ _ _ hwin3, hx4]

/-- Witness for C9: a concrete request that passes every early check
on a fresh engine, for a resource limited to 3 per minute. -/
theorem window_slot_spent_before_bucket_witness :
    lookupKey (check_rate_limit windowDemoState "9.9.9.9"
        "/api/knowledge/search" 0).2.request_history
        ("9.9.9.9" ++ ":" ++ "/api/knowledge/search") =
      some ((((lookupKey windowDemoState.request_history
          ("9.9.9.9" ++ ":" ++ "/api/knowledge/search")).getD
          []).dropWhile (fun e => decide (e.ts < (0 : ℚ) - 60))) ++
        [HistEntry.stamp 0]) :=
  window_slot_spent_before_bucket windowDemoState "9.9.9.9"
    "/api/knowledge/search" 0 3 (by decide) (by rfl)
    (by simp [detect_attack_pattern, windowDemoState, RLState.init])
    (by simp [windowDemoState, RLState.init, lookupKey_cons]) (by decide)
    (by simp [slidingWindowSpec, windowDemoState, RLState.init]) (by decide)

/-! ## C10: when the pattern-analysis history gains an entry -/

/-- C10: the per-identity pattern-analysis history (key
`requests:{ip}`) is untouched by a whitelist Allow and by denials from
the blocklist, the pattern detector, or the per-resource sliding
window; it gains the record of the current request exactly when the
request reaches the token bucket — whether the bucket then allows or
denies.  (The hypothesis keeps the window key of this request distinct
from the pattern key; they can only coincide for the literal identity
"requests".) -/
theorem pattern_history_gated (st : RLState) (ip ep : String) (now : ℚ)
    (hkey : ("requests:" ++ ip) ≠ (ip ++ ":" ++ ep)) :
    (st.config.whitelist.contains ip = true →
      lookupKey (check_rate_limit st ip ep now).2.request_history
          ("requests:" ++ ip) =
        lookupKey st.request_history ("requests:" ++ ip)) ∧
    (st.config.whitelist.contains ip = false →
      blockedNow st ip now = true →
      lookupKey (check_rate_limit st ip ep now).2.request_history
          ("requests:" ++ ip) =
        lookupKey st.request_history ("requests:" ++ ip)) ∧
    (st.config.whitelist.contains ip = false →
      blockedNow st ip now = false →
      (st.config.enable_pattern_detection &&
        detect_attack_pattern st ip ep now) = true →
      lookupKey (check_rate_limit st ip ep now).2.request_history
          ("requests:" ++ ip) =
        lookupKey st.request_history ("requests:" ++ ip)) ∧
    (st.config.whitelist.contains ip = false →
      blockedNow st ip now = false →
      (st.config.enable_pattern_detection &&
        detect_attack_pattern st ip ep now) = false →
      ∀ l : ℕ, (lookupKey st.config.endpoint_limits ep).getD 0 = l →
      l ≠ 0 →
      (slidingWindowSpec
        ((lookupKey st.request_history (ip ++ ":" ++ ep)).getD [])
        now l).1 = false →
      lookupKey (check_rate_limit st ip ep now).2.request_history
          ("requests:" ++ ip) =
        lookupKey st.request_history ("requests:" ++ ip)) ∧
    (st.config.whitelist.contains ip = false →
      blockedNow st ip now = false →
      (st.config.enable_pattern_detection &&
        detect_attack_pattern st ip ep now) = false →
      ((lookupKey st.config.endpoint_limits ep).getD 0 = 0 ∨
        ((lookupKey st.config.endpoint_limits ep).getD 0 ≠ 0 ∧
          (slidingWindowSpec
            ((lookupKey st.request_history (ip ++ ":" ++ ep)).getD [])
            now ((lookupKey st.config.endpoint_limits ep).getD 0)).1 =
            true)) →
      lookupKey (check_rate_limit st ip ep now).2.request_history
          ("requests:" ++ ip) =
        some (appendCap 1000
          ((lookupKey st.request_history ("requests:" ++ ip)).getD [])
          (HistEntry.req now ep))) := by
  have hx1 : (is_blocked
      { st with stats_total_requests := st.stats_total_requests + 1,
                unique_ips := insertUnique st.unique_ips ip }
      ip now).2.request_history = st.request_history := by simp
  have hx2 : (is_blocked
      { st with stats_total_requests := st.stats_total_requests + 1,
                unique_ips := insertUnique st.unique_ips ip }
      ip now).2.config = st.config := by simp
  have hx3 : (get_ip_bucket (is_blocked
      { st with stats_total_requests := st.stats_total_requests + 1,
                unique_ips := insertUnique st.unique_ips ip }
      ip now).2 ip now).2.config = st.config := by simp
  have hx4 : (get_ip_bucket (is_blocked
      { st with stats_total_requests := st.stats_total_requests + 1,
                unique_ips := insertUnique st.unique_ips ip }
      ip now).2 ip now).2.request_history = st.request_history := by simp
  refine ⟨?_, ?_, ?_, ?_, ?_⟩
  · intro h
    rw [crl_whitelist_eq st ip ep now h]
  · intro hw hb
    unfold blockedNow at hb
    cases hu : lookupKey st.blocked_ips ip with
    | none => rw [hu] at hb; cases hb
    | some u =>
        rw [hu] at hb
        have hnow : now < u := of_decide_eq_true hb
        rw [crl_blocked_eq st ip ep now u hw hu hnow]
  · intro hw hb hD
    rw [crl_to_pattern_stage st ip ep now hw hb]
    have hD2 : ((is_blocked
        { st with stats_total_requests := st.stats_total_requests + 1,
                  unique_ips := insertUnique st.unique_ips ip }
        ip now).2.config.enable_pattern_detection &&
        detect_attack_pattern (is_blocked
          { st with stats_total_requests := st.stats_total_requests + 1,
                    unique_ips := insertUnique st.unique_ips ip }
          ip now).2 ip ep now) = true := by
      rw [hx2, detect_attack_pattern_congr ip ep now hx1 hx2]
      exact hD
    rw [pattern_stage_attack _ _ _ _ hD2]
    simp
  · intro hw hb hD l hl h0 hdeny
    rw [crl_to_pattern_stage st ip ep now hw hb]
    have hD2 : ((is_blocked
        { st with stats_total_requests := st.stats_total_requests + 1,
                  unique_ips := insertUnique st.unique_ips ip }
        ip now).2.config.enable_pattern_detection &&
        detect_attack_pattern (is_blocked
          { st with stats_total_requests := st.stats_total_requests + 1,
                    unique_ips := insertUnique st.unique_ips ip }
          ip now).2 ip ep now) = false := by
      rw [hx2, detect_attack_pattern_congr ip ep now hx1 hx2]
      exact hD
    rw [pattern_stage_pass _ _ _ _ hD2]
    rw [endpoint_stage_deny _ _ _ _ _ l (by rw [hx3]; exact hl) h0
      (by rw [hx4]; exact hdeny)]
    dsimp only
    rw [lookupKey_insertKey_ne _ _ _ _ hkey, hx4]
  · intro hw hb hD hcases
    rw [crl_to_pattern_stage st ip ep now hw hb]
    have hD2 : ((is_blocked
        { st with stats_total_requests := st.stats_total_requests + 1,
                  unique_ips := insertUnique st.unique_ips ip }
        ip now).2.config.enable_pattern_detection &&
        detect_attack_pattern (is_blocked
          { st with stats_total_requests := st.stats_total_requests + 1,
                    unique_ips := insertUnique st.unique_ips ip }
          ip now).2 ip ep now) = false := by
      rw [hx2, detect_attack_pattern_congr ip ep now hx1 hx2]
      exact hD
    rw [pattern_stage_pass _ _ _ _ hD2]
    rcases hcases with h0 | ⟨h0, hok⟩
    · rw [endpoint_stage_skip _ _ _ _ _ (by rw [hx3]; exact h0)]
      rw [consume_stage_history, record_request_lookup, hx4]
    · rw [endpoint_stage_pass _ _ _ _ _
        ((lookupKey st.config.endpoint_limits ep).getD 0)
        (by rw [hx3]) h0 (by rw [hx4]; exact hok)]
      rw [consume_stage_history, record_request_lookup]
      dsimp only
      rw [lookupKey_insertKey_ne _ _ _ _ hkey, hx4]

/-- Witness for C10 at a concrete input: on a fresh engine with no
endpoint limit for the resource, a request from a non-whitelisted,
unblocked identity reaches the bucket and its record lands in the
pattern-analysis history. -/
theorem pattern_history_gated_witness :
    lookupKey (check_rate_limit (RLState.init
      { ip_rate_limit := 30, ip_burst := 60, endpoint_limits := [],
        block_threshold := 1000, block_duration := 3600, burst_threshold := 50,
        whitelist := ["127.0.0.1"], enable_pattern_detection := true,
        enable_distributed_attack_detection := true,
        enable_slowloris_protection := true }) "9.9.9.9" "/api/x" 0
        ).2.request_history ("requests:" ++ "9.9.9.9") =
      some (appendCap 1000
        ((lookupKey (RLState.init
          { ip_rate_limit := 30, ip_burst := 60, endpoint_limits := [],
            block_threshold := 1000, block_duration := 3600,
            burst_threshold := 50, whitelist := ["127.0.0.1"],
            enable_pattern_detection := true,
            enable_distributed_attack_detection := true,
            enable_slowloris_protection := true }).request_history
          ("requests:" ++ "9.9.9.9")).getD [])
        (HistEntry.req 0 "/api/x")) :=
  (pattern_history_gated (RLState.init
      { ip_rate_limit := 30, ip_burst := 60, endpoint_limits := [],
        block_threshold := 1000, block_duration := 3600, burst_threshold := 50,
        whitelist := ["127.0.0.1"], enable_pattern_detection := true,
        enable_distributed_attack_detection := true,
        enable_slowloris_protection := true }) "9.9.9.9" "/api/x" 0
      (by decide)).2.2.2.2 (by decide) (by rfl)
    (by simp [detect_attack_pattern, RLState.init]) (Or.inl (by rfl))

/-! ## C5: the burst heuristic -/

/-- C5 counterexample: with `burst_threshold = 1`, the identity
"9.9.9.9" sends `burstThreshold + 1 = 2` requests within one second
(clock readings 0 and 1/2).  Contrary to the claim it does NOT become
blocked — both requests are allowed, the blocklist still has no entry
for it afterwards, and a later request at reading 100 (no traffic in
between) is allowed as well.  The detector only sees the history
recorded BEFORE the current request, so the trip happens one request
later than the claim states. -/
theorem burst_plus_one_does_not_block :
    (runRequests burstDemoState "9.9.9.9" "/x" [0, 1/2, 100]).1 =
      [true, true, true] ∧
    lookupKey (runRequests burstDemoState "9.9.9.9" "/x"
      [0, 1/2]).2.blocked_ips "9.9.9.9" = none := by
  constructor
  · norm_num +decide [runRequests, check_rate_limit, is_blocked,
      crl_pattern_stage, crl_endpoint_stage, crl_consume_stage,
      detect_attack_pattern, get_ip_bucket, TokenBucket.consume,
      TokenBucket.refill, TokenBucket.init, record_request, appendCap,
      insertKey, lookupKey_cons, insertUnique, burstDemoState, RLState.init,
      HistEntry.ts, HistEntry.ep, slow_endpoints, should_block_ip, block_ip]
  · norm_num +decide [runRequests, check_rate_limit, is_blocked,
      crl_pattern_stage, crl_endpoint_stage, crl_consume_stage,
      detect_attack_pattern, get_ip_bucket, TokenBucket.consume,
      TokenBucket.refill, TokenBucket.init, record_request, appendCap,
      insertKey, lookupKey_cons, insertUnique, burstDemoState, RLState.init,
      HistEntry.ts, HistEntry.ep, slow_endpoints, should_block_ip, block_ip]

/-- Amended C5: a request from a non-whitelisted, unblocked identity
arriving when MORE than `burstThreshold` already-recorded requests
carry timestamps within its trailing 1 second (i.e. the
`burstThreshold + 2`-nd request of a 1-second burst) trips the burst
heuristic: the request is denied with "Suspicious request pattern
detected", the identity is blocked until `now + blockDuration`, and
every subsequent request before that instant is denied as temporarily
blocked even if no traffic was sent in between. -/
theorem burst_blocks_next_request (st : RLState) (ip ep : String) (now : ℚ)
    (hw : st.config.whitelist.contains ip = false)
    (hb0 : lookupKey st.blocked_ips ip = none)
    (hpd : st.config.enable_pattern_detection = true)
    (hburst : (((lookupKey st.request_history ("requests:" ++ ip)).getD
      []).filter (fun r => decide (now - 1 < r.ts))).length >
      st.config.burst_threshold) :
    (check_rate_limit st ip ep now).1 =
      (false, some "Suspicious request pattern detected") ∧
    lookupKey (check_rate_limit st ip ep now).2.blocked_ips ip =
      some (now + st.config.block_duration) ∧
    (∀ (ep2 : String) (t2 : ℚ), t2 < now + st.config.block_duration →
      (check_rate_limit (check_rate_limit st ip ep now).2 ip ep2 t2).1 =
        (false, some ("IP " ++ ip ++
          " is temporarily blocked due to excessive requests"))) := by
  have hB : blockedNow st ip now = false := by
    unfold blockedNow
    rw [hb0]
  rw [crl_to_pattern_stage st ip ep now hw hB]
  have hx1 : (is_blocked
      { st with stats_total_requests := st.stats_total_requests + 1,
                unique_ips := insertUnique st.unique_ips ip }
      ip now).2.request_history = st.request_history := by simp
  have hx2 : (is_blocked
      { st with stats_total_requests := st.stats_total_requests + 1,
                unique_ips := insertUnique st.unique_ips ip }
      ip now).2.config = st.config := by simp
  have hdet : detect_attack_pattern st ip ep now = true :=
    detect_of_burst st ip ep now hburst
  have hD2 : ((is_blocked
      { st with stats_total_requests := st.stats_total_requests + 1,
                unique_ips := insertUnique st.unique_ips ip }
      ip now).2.config.enable_pattern_detection &&
      detect_attack_pattern (is_blocked
        { st with stats_total_requests := st.stats_total_requests + 1,
                  unique_ips := insertUnique st.unique_ips ip }
        ip now).2 ip ep now) = true := by
    rw [hx2, detect_attack_pattern_congr ip ep now hx1 hx2, hpd, hdet]
    rfl
  rw [pattern_stage_attack _ _ _ _ hD2]
  refine ⟨rfl, ?_, ?_⟩
  · unfold block_ip
    dsimp only
    rw [lookupKey_insertKey_self, hx2]
  · intro ep2 t2 ht2
    apply crl_blocked_fst _ ip ep2 t2 (now + st.config.block_duration)
    · rw [block_ip_config, hx2]
      exact hw
    · unfold block_ip
      dsimp only
      rw [lookupKey_insertKey_self, hx2]
    · exact ht2

/-- Witness for the amended C5: `burst_threshold = 1` and two recorded
requests within the last second; the next request (the third of the
burst) is denied with the pattern reason. -/
theorem burst_blocks_next_request_witness :
    (check_rate_limit
      { config :=
          { ip_rate_limit := 30, ip_burst := 60, endpoint_limits := [],
            block_threshold := 1000, block_duration := 3600,
            burst_threshold := 1, whitelist := ["127.0.0.1"],
            enable_pattern_detection := true,
            enable_distributed_attack_detection := true,
            enable_slowloris_protection := true },
        ip_buckets := [],
        request_history :=
          [("requests:9.9.9.9", [HistEntry.req 0 "/x", HistEntry.req (1/2) "/x"])],
        blocked_ips := [], stats_total_requests := 2,
        stats_blocked_requests := 0, stats_rate_limited_requests := 0,
        unique_ips := ["9.9.9.9"] } "9.9.9.9" "/x" (1/2)).1 =
      (false, some "Suspicious request pattern detected") :=
  (burst_blocks_next_request _ "9.9.9.9" "/x" (1/2) (by decide) (by rfl)
    (by rfl)
    (by norm_num +decide [List.filter, lookupKey_cons, HistEntry.ts])).1

/-! ## C7: ResetIdentity -/

theorem isPrefixOf_append_self (l t : List Char) :
    l.isPrefixOf (l ++ t) = true := by
  induction l with
  | nil => simp [List.isPrefixOf]
  | cons a r ih => simp [List.isPrefixOf, ih]

theorem subOfChars_of_isPrefixOf {sub l : List Char}
    (h : sub.isPrefixOf l = true) : subOfChars sub l = true := by
  cases l with
  | nil =>
      cases sub with
      | nil => rfl
      | cons a r => simp [List.isPrefixOf] at h
  | cons c rest =>
      unfold subOfChars
      rw [h]
      rfl

theorem isPrefixOf_self (l : List Char) : l.isPrefixOf l = true := by
  induction l with
  | nil => rfl
  | cons a r ih => simp [List.isPrefixOf, ih]

theorem subOfChars_append_self (pre sub : List Char) :
    subOfChars sub (pre ++ sub) = true := by
  induction pre with
  | nil =>
      simp only [List.nil_append]
      exact subOfChars_of_isPrefixOf (isPrefixOf_self sub)
  | cons c pre ih =>
      simp only [List.cons_append]
      unfold subOfChars
      rw [ih]
      simp

theorem strContains_right (pre ip : String) :
    strContains (pre ++ ip) ip = true := by
  unfold strContains
  rw [show (pre ++ ip).toList = pre.toList ++ ip.toList from by
    simp [String.toList]]
  exact subOfChars_append_self _ _

theorem strContains_left (ip post : String) :
    strContains (ip ++ post) ip = true := by
  unfold strContains
  rw [show (ip ++ post).toList = ip.toList ++ post.toList from by
    simp [String.toList]]
  exact subOfChars_of_isPrefixOf (isPrefixOf_append_self _ _)

theorem lookupKey_filter_none {α : Type} (m : List (String × α))
    (f : String → Bool) (q : String) (hq : f q = true) :
    lookupKey (m.filter (fun p => !(f p.1))) q = none := by
  induction m with
  | nil => rfl
  | cons p rest ih =>
      rw [List.filter_cons]
      cases hp : f p.1 with
      | true =>
          simp only [hp, Bool.not_true, Bool.false_eq_true, if_false]
          exact ih
      | false =>
          have hbeq : (p.1 == q) = false := by
            simp only [beq_eq_false_iff_ne]
            intro he
            rw [he, hq] at hp
            cases hp
          simp only [hp, Bool.not_false, if_true]
          rw [lookupKey_cons, hbeq]
          simp only [Bool.false_eq_true, if_false]
          exact ih

theorem lookupKey_filter_of_not {α : Type} (m : List (String × α))
    (f : String → Bool) (q : String) (hq : f q = false) :
    lookupKey (m.filter (fun p => !(f p.1))) q = lookupKey m q := by
  induction m with
  | nil => rfl
  | cons p rest ih =>
      rw [List.filter_cons]
      cases hp : f p.1 with
      | true =>
          have hbeq : (p.1 == q) = false := by
            simp only [beq_eq_false_iff_ne]
            intro he
            rw [he, hq] at hp
            cases hp
          simp only [hp, Bool.not_true, Bool.false_eq_true, if_false]
          rw [ih, lookupKey_cons, hbeq]
          simp
      | false =>
          simp only [hp, Bool.not_false, if_true]
          rw [lookupKey_cons, lookupKey_cons, ih]

theorem detect_of_none (st : RLState) (ip ep : String) (now : ℚ)
    (h : lookupKey st.request_history ("requests:" ++ ip) = none) :
    detect_attack_pattern st ip ep now = false := by
  unfold detect_attack_pattern
  rw [h]
  rfl

theorem get_ip_bucket_fst_of_none (s : RLState) (ip : String) (now : ℚ)
    (h : lookupKey s.ip_buckets ip = none) :
    (get_ip_bucket s ip now).1 =
      TokenBucket.init s.config.ip_burst s.config.ip_rate_limit now := by
  unfold get_ip_bucket
  rw [h]

theorem consume_init_full (cap rate now : ℚ) (h : 1 ≤ cap) :
    ((TokenBucket.init cap rate now).consume now 1).1 = true := by
  unfold TokenBucket.consume TokenBucket.refill TokenBucket.init
  dsimp only
  have hcond : ((1 : ℕ) : ℚ) ≤ min cap (cap + (now - now) * rate) := by
    have he : cap + (now - now) * rate = cap := by ring
    rw [he, min_self]
    simpa using h
  rw [if_pos hcond]

theorem consume_stage_fst_allow (st4 : RLState) (bucket : TokenBucket)
    (ip ep : String) (now : ℚ) (hc : (bucket.consume now 1).1 = true) :
    (crl_consume_stage st4 bucket ip ep now).1 = (true, none) := by
  unfold crl_consume_stage
  dsimp only
  rw [hc]
  rw [if_pos rfl]

theorem slidingWindowSpec_nil_fst (now : ℚ) (l : ℕ) (h : l ≠ 0) :
    (slidingWindowSpec [] now l).1 = true := by
  unfold slidingWindowSpec
  dsimp only
  rw [if_pos (by simpa [List.dropWhile] using Nat.pos_of_ne_zero h)]

/-- A state holding only another identity's pattern history, to show
the substring-based deletion of `reset_ip`. -/
def resetDemoState : RLState :=
  { config :=
      { ip_rate_limit := 30, ip_burst := 60, endpoint_limits := [],
        block_threshold := 1000, block_duration := 3600, burst_threshold := 50,
        whitelist := ["127.0.0.1"], enable_pattern_detection := true,
        enable_distributed_attack_detection := true,
        enable_slowloris_protection := true },
    ip_buckets := [], request_history := [("requests:11.2.3.45", [])],
    blocked_ips := [], stats_total_requests := 0, stats_blocked_requests := 0,
    stats_rate_limited_requests := 0, unique_ips := [] }

/-- C7 counterexample: `reset_ip` matches request-history keys by
SUBSTRING (`if ip in k`), so resetting "1.2.3.4" deletes the pattern
history of the distinct identity "11.2.3.45" — the state of another
identity is changed, contrary to the claim. -/
theorem reset_ip_clobbers_other_identity :
    lookupKey resetDemoState.request_history "requests:11.2.3.45" =
      some [] ∧
    lookupKey (reset_ip resetDemoState "1.2.3.4").2.request_history
      "requests:11.2.3.45" = none ∧
    ("1.2.3.4" : String) ≠ "11.2.3.45" := by
  refine ⟨by decide, by decide, by decide⟩

/-- Amended C7: `reset_ip` returns its success message unconditionally
(a never-seen identity is a no-op success); it removes the identity's
blocklist entry and token bucket by exact key, and removes every
request-history entry whose KEY CONTAINS the identity as a substring —
which covers the identity's own pattern and window keys but can also
delete history of other identities whose key merely contains it; the
blocklist and bucket entries of every other identity, history entries
whose key does not contain the identity, the configuration and the
statistics are untouched; and the freshly reset identity is allowed
again on its next request (given a positive bucket capacity and not
being whitelisted — whitelisted calls are allowed anyway). -/
theorem reset_ip_scoped (st : RLState) (ip : String)
    (hnodupB : (st.blocked_ips.map Prod.fst).Nodup)
    (hnodupK : (st.ip_buckets.map Prod.fst).Nodup) :
    (reset_ip st ip).1 = "IP " ++ ip ++ " has been reset" ∧
    lookupKey (reset_ip st ip).2.blocked_ips ip = none ∧
    lookupKey (reset_ip st ip).2.ip_buckets ip = none ∧
    lookupKey (reset_ip st ip).2.request_history ("requests:" ++ ip) = none ∧
    (∀ ep : String,
      lookupKey (reset_ip st ip).2.request_history (ip ++ ":" ++ ep) = none) ∧
    (∀ k, k ≠ ip →
      lookupKey (reset_ip st ip).2.blocked_ips k =
        lookupKey st.blocked_ips k) ∧
    (∀ k, k ≠ ip →
      lookupKey (reset_ip st ip).2.ip_buckets k =
        lookupKey st.ip_buckets k) ∧
    (∀ k, strContains k ip = false →
      lookupKey (reset_ip st ip).2.request_history k =
        lookupKey st.request_history k) ∧
    (reset_ip st ip).2.config = st.config ∧
    (reset_ip st ip).2.stats_total_requests = st.stats_total_requests ∧
    (∀ (ep : String) (t : ℚ),
      st.config.whitelist.contains ip = false →
      1 ≤ st.config.ip_burst →
      (check_rate_limit (reset_ip st ip).2 ip ep t).1 = (true, none)) := by
  refine ⟨rfl, ?_, ?_, ?_, ?_, ?_, ?_, ?_, rfl, rfl, ?_⟩
  · exact lookupKey_eraseKey_self _ _ hnodupB
  · exact lookupKey_eraseKey_self _ _ hnodupK
  · exact lookupKey_filter_none st.request_history
      (fun k => strContains k ip) ("requests:" ++ ip)
      (strContains_right "requests:" ip)
  · intro ep
    have hsub : strContains (ip ++ ":" ++ ep) ip = true := by
      rw [String.append_assoc]
      exact strContains_left ip (":" ++ ep)
    exact lookupKey_filter_none st.request_history
      (fun k => strContains k ip) (ip ++ ":" ++ ep) hsub
  · intro k hk
    exact lookupKey_eraseKey_ne _ _ _ hk
  · intro k hk
    exact lookupKey_eraseKey_ne _ _ _ hk
  · intro k hk
    exact lookupKey_filter_of_not st.request_history
      (fun q => strContains q ip) k hk
  · intro ep t hw hcap
    have hB : blockedNow (reset_ip st ip).2 ip t = false := by
      unfold blockedNow
      rw [show lookupKey (reset_ip st ip).2.blocked_ips ip = none from
        lookupKey_eraseKey_self _ _ hnodupB]
    rw [crl_to_pattern_stage (reset_ip st ip).2 ip ep t hw hB]
    have hx1 : (is_blocked
        { (reset_ip st ip).2 with
          stats_total_requests := (reset_ip st ip).2.stats_total_requests + 1,
          unique_ips := insertUnique (reset_ip st ip).2.unique_ips ip }
        ip t).2.request_history = (reset_ip st ip).2.request_history := by simp
    have hx2 : (is_blocked
        { (reset_ip st ip).2 with
          stats_total_requests := (reset_ip st ip).2.stats_total_requests + 1,
          unique_ips := insertUnique (reset_ip st ip).2.unique_ips ip }
        ip t).2.config = (reset_ip st ip).2.config := by simp
    have hdet : detect_attack_pattern (reset_ip st ip).2 ip ep t = false :=
      detect_of_none _ ip ep t
        (lookupKey_filter_none st.request_history
          (fun k => strContains k ip) ("requests:" ++ ip)
          (strContains_right "requests:" ip))
    have hD2 : ((is_blocked
        { (reset_ip st ip).2 with
          stats_total_requests := (reset_ip st ip).2.stats_total_requests + 1,
          unique_ips := insertUnique (reset_ip st ip).2.unique_ips ip }
        ip t).2.config.enable_pattern_detection &&
        detect_attack_pattern (is_blocked
          { (reset_ip st ip).2 with
            stats_total_requests :=
              (reset_ip st ip).2.stats_total_requests + 1,
            unique_ips := insertUnique (reset_ip st ip).2.unique_ips ip }
          ip t).2 ip ep t) = false := by
      rw [hx2, detect_attack_pattern_congr ip ep t hx1 hx2, hdet]
      simp
    rw [pattern_stage_pass _ _ _ _ hD2]
    have hnone : lookupKey (is_blocked
        { (reset_ip st ip).2 with
          stats_total_requests := (reset_ip st ip).2.stats_total_requests + 1,
          unique_ips := insertUnique (reset_ip st ip).2.unique_ips ip }
        ip t).2.ip_buckets ip = none := by
      rw [is_blocked_snd_buckets]
      exact lookupKey_eraseKey_self _ _ hnodupK
    have hc : (((get_ip_bucket (is_blocked
        { (reset_ip st ip).2 with
          stats_total_requests := (reset_ip st ip).2.stats_total_requests + 1,
          unique_ips := insertUnique (reset_ip st ip).2.unique_ips ip }
        ip t).2 ip t).1).consume t 1).1 = true := by
      rw [get_ip_bucket_fst_of_none _ _ _ hnone]
      refine consume_init_full _ _ _ ?_
      rw [is_blocked_snd_config]
      exact hcap
    have hwk : lookupKey (get_ip_bucket (is_blocked
        { (reset_ip st ip).2 with
          stats_total_requests := (reset_ip st ip).2.stats_total_requests + 1,
          unique_ips := insertUnique (reset_ip st ip).2.unique_ips ip }
        ip t).2 ip t).2.request_history (ip ++ ":" ++ ep) = none := by
      rw [get_ip_bucket_history, is_blocked_snd_history]
      dsimp only [reset_ip]
      have hsub : strContains (ip ++ ":" ++ ep) ip = true := by
        rw [String.append_assoc]
        exact strContains_left ip (":" ++ ep)
      exact lookupKey_filter_none st.request_history
        (fun k => strContains k ip) (ip ++ ":" ++ ep) hsub
    have hx3 : (get_ip_bucket (is_blocked
        { (reset_ip st ip).2 with
          stats_total_requests := (reset_ip st ip).2.stats_total_requests + 1,
          unique_ips := insertUnique (reset_ip st ip).2.unique_ips ip }
        ip t).2 ip t).2.config = st.config := by simp [reset_ip]
    by_cases hl0 : (lookupKey st.config.endpoint_limits ep).getD 0 = 0
    · rw [endpoint_stage_skip _ _ _ _ _ (by rw [hx3]; exact hl0)]
      exact consume_stage_fst_allow _ _ _ _ _ hc
    · rw [endpoint_stage_pass _ _ _ _ _
        ((lookupKey st.config.endpoint_limits ep).getD 0) (by rw [hx3]) hl0
        (by rw [hwk]; exact slidingWindowSpec_nil_fst t _ hl0)]
      exact consume_stage_fst_allow _ _ _ _ _ hc

/-- Witness for the amended C7 at a concrete state: identity "9.9.9.9"
is blocked, bucketed and recorded, "8.8.8.8" has a blocklist entry;
after `reset_ip "9.9.9.9"` the identity's entries are gone, "8.8.8.8"
keeps its entry, and the next request from "9.9.9.9" is allowed. -/
theorem reset_ip_scoped_witness :
    (reset_ip
      { config :=
          { ip_rate_limit := 30, ip_burst := 60, endpoint_limits := [],
            block_threshold := 1000, block_duration := 3600,
            burst_threshold := 50, whitelist := ["127.0.0.1"],
            enable_pattern_detection := true,
            enable_distributed_attack_detection := true,
            enable_slowloris_protection := true },
        ip_buckets :=
          [("9.9.9.9",
            { capacity := 60, refill_rate := 30, tokens := 0,
              last_refill := 0 })],
        request_history := [("requests:9.9.9.9", [HistEntry.req 0 "/x"])],
        blocked_ips := [("9.9.9.9", 500), ("8.8.8.8", 700)],
        stats_total_requests := 3, stats_blocked_requests := 1,
        stats_rate_limited_requests := 0,
        unique_ips := ["9.9.9.9"] } "9.9.9.9").1 =
      "IP " ++ "9.9.9.9" ++ " has been reset" ∧
    lookupKey (reset_ip
      { config :=
          { ip_rate_limit := 30, ip_burst := 60, endpoint_limits := [],
            block_threshold := 1000, block_duration := 3600,
            burst_threshold := 50, whitelist := ["127.0.0.1"],
            enable_pattern_detection := true,
            enable_distributed_attack_detection := true,
            enable_slowloris_protection := true },
        ip_buckets :=
          [("9.9.9.9",
            { capacity := 60, refill_rate := 30, tokens := 0,
              last_refill := 0 })],
        request_history := [("requests:9.9.9.9", [HistEntry.req 0 "/x"])],
        blocked_ips := [("9.9.9.9", 500), ("8.8.8.8", 700)],
        stats_total_requests := 3, stats_blocked_requests := 1,
        stats_rate_limited_requests := 0,
        unique_ips := ["9.9.9.9"] } "9.9.9.9").2.blocked_ips "9.9.9.9" =
      none ∧
    lookupKey (reset_ip
      { config :=
          { ip_rate_limit := 30, ip_burst := 60, endpoint_limits := [],
            block_threshold := 1000, block_duration := 3600,
            burst_threshold := 50, whitelist := ["127.0.0.1"],
            enable_pattern_detection := true,
            enable_distributed_attack_detection := true,
            enable_slowloris_protection := true },
        ip_buckets :=
          [("9.9.9.9",
            { capacity := 60, refill_rate := 30, tokens := 0,
              last_refill := 0 })],
        request_history := [("requests:9.9.9.9", [HistEntry.req 0 "/x"])],
        blocked_ips := [("9.9.9.9", 500), ("8.8.8.8", 700)],
        stats_total_requests := 3, stats_blocked_requests := 1,
        stats_rate_limited_requests := 0,
        unique_ips := ["9.9.9.9"] } "9.9.9.9").2.blocked_ips "8.8.8.8" =
      lookupKey [("9.9.9.9", (500 : ℚ)), ("8.8.8.8", 700)] "8.8.8.8" ∧
    (check_rate_limit (reset_ip
      { config :=
          { ip_rate_limit := 30, ip_burst := 60, endpoint_limits := [],
            block_threshold := 1000, block_duration := 3600,
            burst_threshold := 50, whitelist := ["127.0.0.1"],
            enable_pattern_detection := true,
            enable_distributed_attack_detection := true,
            enable_slowloris_protection := true },
        ip_buckets :=
          [("9.9.9.9",
            { capacity := 60, refill_rate := 30, tokens := 0,
              last_refill := 0 })],
        request_history := [("requests:9.9.9.9", [HistEntry.req 0 "/x"])],
        blocked_ips := [("9.9.9.9", 500), ("8.8.8.8", 700)],
        stats_total_requests := 3, stats_blocked_requests := 1,
        stats_rate_limited_requests := 0,
        unique_ips := ["9.9.9.9"] } "9.9.9.9").2 "9.9.9.9" "/x" 600).1 =
      (true, none) := by
  have h := reset_ip_scoped
    { config :=
        { ip_rate_limit := 30, ip_burst := 60, endpoint_limits := [],
          block_threshold := 1000, block_duration := 3600,
          burst_threshold := 50, whitelist := ["127.0.0.1"],
          enable_pattern_detection := true,
          enable_distributed_attack_detection := true,
          enable_slowloris_protection := true },
      ip_buckets :=
        [("9.9.9.9",
          { capacity := 60, refill_rate := 30, tokens := 0,
            last_refill := 0 })],
      request_history := [("requests:9.9.9.9", [HistEntry.req 0 "/x"])],
      blocked_ips := [("9.9.9.9", 500), ("8.8.8.8", 700)],
      stats_total_requests := 3, stats_blocked_requests := 1,
      stats_rate_limited_requests := 0,
      unique_ips := ["9.9.9.9"] } "9.9.9.9" (by decide) (by decide)
  exact ⟨h.1, h.2.1, h.2.2.2.2.2.1 "8.8.8.8" (by decide),
    h.2.2.2.2.2.2.2.2.2.2 "/x" 600 (by decide) (by norm_num)⟩

/-! ## C8: reasons and statistics -/

theorem consume_stage_facts (st4 : RLState) (bucket : TokenBucket)
    (ip ep : String) (now : ℚ) :
    ((crl_consume_stage st4 bucket ip ep now).1.1 = true →
      (crl_consume_stage st4 bucket ip ep now).1.2 = none) ∧
    ((crl_consume_stage st4 bucket ip ep now).1.1 = false →
      (crl_consume_stage st4 bucket ip ep now).1.2 ≠ none) ∧
    (crl_consume_stage st4 bucket ip ep now).2.stats_total_requests =
      st4.stats_total_requests ∧
    (crl_consume_stage st4 bucket ip ep now).2.stats_blocked_requests =
      st4.stats_blocked_requests ∧
    ((crl_consume_stage st4 bucket ip ep now).1.1 = true →
      (crl_consume_stage st4 bucket ip ep now).2.stats_rate_limited_requests =
        st4.stats_rate_limited_requests) ∧
    ((crl_consume_stage st4 bucket ip ep now).1.1 = false →
      (crl_consume_stage st4 bucket ip ep now).2.stats_rate_limited_requests =
        st4.stats_rate_limited_requests + 1) := by
  rcases consume_stage_verdicts st4 bucket ip ep now with
    ⟨hv, hr, hbk, ht⟩ | ⟨hv, hr, hbk, ht⟩
  · refine ⟨fun _ => by rw [hv], ?_, ht, hbk, fun _ => hr, ?_⟩
    · intro h
      rw [hv] at h
      simp at h
    · intro h
      rw [hv] at h
      simp at h
  · refine ⟨?_, ?_, ht, hbk, ?_, fun _ => hr⟩
    · intro htrue
      rcases hv with hv | hv <;> (rw [hv] at htrue; simp at htrue)
    · intro _
      rcases hv with hv | hv <;> (rw [hv]; simp)
    · intro htrue
      rcases hv with hv | hv <;> (rw [hv] at htrue; simp at htrue)

/-- C8 counterexample: an Allow decision carries NO reason string — on
a fresh engine, the whitelisted identity's call returns
`(true, None)`, so "every decision carries a reason string" is false
(and the engine keeps no `allowedCount` statistic at all). -/
theorem allow_carries_no_reason :
    (check_rate_limit (RLState.init
      { ip_rate_limit := 30, ip_burst := 60, endpoint_limits := [],
        block_threshold := 1000, block_duration := 3600, burst_threshold := 50,
        whitelist := ["127.0.0.1"], enable_pattern_detection := true,
        enable_distributed_attack_detection := true,
        enable_slowloris_protection := true }) "127.0.0.1" "/api/x" 5).1 =
      (true, none) := by
  rw [crl_whitelist_eq _ _ _ _ (by decide)]

/-- Amended C8: every Deny carries a reason string, while every Allow
carries none (there is no reason string and no allowed counter for
Allow); every call increments `totalRequests`; blocklist denials
increment `blockedCount` and leave `rateLimitedCount` alone; pattern
denials increment neither outcome counter; past those checks a denial
(window or bucket) increments `rateLimitedCount` and an allow leaves
both outcome counters alone; `GetStats` reports `totalRequests`,
`blockedCount`, `rateLimitedCount`, `uniqueIdentities`,
`currentlyBlockedCount` and `activeBuckets` — there is no
`allowedCount`. -/
theorem decisions_reasons_and_stats (st : RLState) (ip ep : String)
    (now : ℚ) :
    ((check_rate_limit st ip ep now).1.1 = true →
      (check_rate_limit st ip ep now).1.2 = none) ∧
    ((check_rate_limit st ip ep now).1.1 = false →
      (check_rate_limit st ip ep now).1.2 ≠ none) ∧
    (check_rate_limit st ip ep now).2.stats_total_requests =
      st.stats_total_requests + 1 ∧
    (st.config.whitelist.contains ip = false →
      blockedNow st ip now = true →
      (check_rate_limit st ip ep now).2.stats_blocked_requests =
        st.stats_blocked_requests + 1 ∧
      (check_rate_limit st ip ep now).2.stats_rate_limited_requests =
        st.stats_rate_limited_requests) ∧
    (st.config.whitelist.contains ip = false →
      blockedNow st ip now = false →
      (st.config.enable_pattern_detection &&
        detect_attack_pattern st ip ep now) = true →
      (check_rate_limit st ip ep now).1.2 =
        some "Suspicious request pattern detected" ∧
      (check_rate_limit st ip ep now).2.stats_blocked_requests =
        st.stats_blocked_requests ∧
      (check_rate_limit st ip ep now).2.stats_rate_limited_requests =
        st.stats_rate_limited_requests) ∧
    (st.config.whitelist.contains ip = false →
      blockedNow st ip now = false →
      (st.config.enable_pattern_detection &&
        detect_attack_pattern st ip ep now) = false →
      (check_rate_limit st ip ep now).2.stats_blocked_requests =
        st.stats_blocked_requests ∧
      ((check_rate_limit st ip ep now).1.1 = true →
        (check_rate_limit st ip ep now).2.stats_rate_limited_requests =
          st.stats_rate_limited_requests) ∧
      ((check_rate_limit st ip ep now).1.1 = false →
        (check_rate_limit st ip ep now).2.stats_rate_limited_requests =
          st.stats_rate_limited_requests + 1)) ∧
    get_stats st =
      { total_requests := st.stats_total_requests,
        blocked_requests := st.stats_blocked_requests,
        rate_limited_requests := st.stats_rate_limited_requests,
        unique_ips := st.unique_ips.length,
        currently_blocked_ips := st.blocked_ips.length,
        active_buckets := st.ip_buckets.length } := by
  cases hwl : st.config.whitelist.contains ip with
  | true =>
      rw [crl_whitelist_eq st ip ep now hwl]
      refine ⟨fun _ => rfl, ?_, rfl, ?_, ?_, ?_, rfl⟩
      · intro h
        simp at h
      · intro hcon _
        simp at hcon
      · intro hcon _ _
        simp at hcon
      · intro hcon _ _
        simp at hcon
  | false =>
      cases hbn : blockedNow st ip now with
      | true =>
          have hbn' := hbn
          unfold blockedNow at hbn'
          cases hu : lookupKey st.blocked_ips ip with
          | none =>
              rw [hu] at hbn'
              simp at hbn'
          | some u =>
              rw [hu] at hbn'
              have hnow : now < u := of_decide_eq_true hbn'
              rw [crl_blocked_eq st ip ep now u hwl hu hnow]
              refine ⟨?_, ?_, rfl, fun _ _ => ⟨rfl, rfl⟩, ?_, ?_, rfl⟩
              · intro h
                simp at h
              · intro _
                simp
              · intro _ hcon _
                simp at hcon
              · intro _ hcon _
                simp at hcon
      | false =>
          rw [crl_to_pattern_stage st ip ep now hwl hbn]
          have hx1 : (is_blocked
              { st with stats_total_requests := st.stats_total_requests + 1,
                        unique_ips := insertUnique st.unique_ips ip }
              ip now).2.request_history = st.request_history := by simp
          have hx2 : (is_blocked
              { st with stats_total_requests := st.stats_total_requests + 1,
                        unique_ips := insertUnique st.unique_ips ip }
              ip now).2.config = st.config := by simp
          have hx3 : (get_ip_bucket (is_blocked
              { st with stats_total_requests := st.stats_total_requests + 1,
                        unique_ips := insertUnique st.unique_ips ip }
              ip now).2 ip now).2.config = st.config := by simp
          have hx4 : (get_ip_bucket (is_blocked
              { st with stats_total_requests := st.stats_total_requests + 1,
                        unique_ips := insertUnique st.unique_ips ip }
              ip now).2 ip now).2.request_history = st.request_history := by
            simp
          cases hati : (st.config.enable_pattern_detection &&
              detect_attack_pattern st ip ep now) with
          | true =>
              have hD2 : ((is_blocked
                  { st with
                    stats_total_requests := st.stats_total_requests + 1,
                    unique_ips := insertUnique st.unique_ips ip }
                  ip now).2.config.enable_pattern_detection &&
                  detect_attack_pattern (is_blocked
                    { st with
                      stats_total_requests := st.stats_total_requests + 1,
                      unique_ips := insertUnique st.unique_ips ip }
                    ip now).2 ip ep now) = true := by
                rw [hx2, detect_attack_pattern_congr ip ep now hx1 hx2]
                exact hati
              rw [pattern_stage_attack _ _ _ _ hD2]
              refine ⟨?_, ?_, by simp, ?_, fun _ _ _ => ⟨rfl, by simp, by simp⟩,
                ?_, rfl⟩
              · intro h
                simp at h
              · intro _
                simp
              · intro _ hcon
                simp at hcon
              · intro _ _ hcon
                simp at hcon
          | false =>
              have hD2 : ((is_blocked
                  { st with
                    stats_total_requests := st.stats_total_requests + 1,
                    unique_ips := insertUnique st.unique_ips ip }
                  ip now).2.config.enable_pattern_detection &&
                  detect_attack_pattern (is_blocked
                    { st with
                      stats_total_requests := st.stats_total_requests + 1,
                      unique_ips := insertUnique st.unique_ips ip }
                    ip now).2 ip ep now) = false := by
                rw [hx2, detect_attack_pattern_congr ip ep now hx1 hx2]
                exact hati
              rw [pattern_stage_pass _ _ _ _ hD2]
              by_cases hl0 :
                  (lookupKey st.config.endpoint_limits ep).getD 0 = 0
              · rw [endpoint_stage_skip _ _ _ _ _ (by rw [hx3]; exact hl0)]
                refine ⟨(consume_stage_facts _ _ ip ep now).1,
                  (consume_stage_facts _ _ ip ep now).2.1, ?_, ?_, ?_, ?_, rfl⟩
                · rw [(consume_stage_facts _ _ ip ep now).2.2.1]
                  simp
                · intro _ hcon
                  simp at hcon
                · intro _ _ hcon
                  simp at hcon
                · intro _ _ _
                  refine ⟨?_, ?_, ?_⟩
                  · rw [(consume_stage_facts _ _ ip ep now).2.2.2.1]
                    simp
                  · intro htrue
                    rw [(consume_stage_facts _ _ ip ep now).2.2.2.2.1 htrue]
                    simp
                  · intro hfalse
                    rw [(consume_stage_facts _ _ ip ep now).2.2.2.2.2 hfalse]
                    simp
              · cases hwv : (slidingWindowSpec
                    ((lookupKey st.request_history (ip ++ ":" ++ ep)).getD [])
                    now ((lookupKey st.config.endpoint_limits ep).getD 0)).1
                  with
                | false =>
                    rw [endpoint_stage_deny _ _ _ _ _
                      ((lookupKey st.config.endpoint_limits ep).getD 0)
                      (by rw [hx3]) hl0 (by rw [hx4]; exact hwv)]
                    refine ⟨?_, ?_, by simp, ?_, ?_, ?_, rfl⟩
                    · intro h
                      simp at h
                    · intro _
                      simp
                    · intro _ hcon
                      simp at hcon
                    · intro _ _ hcon
                      simp at hcon
                    · intro _ _ _
                      refine ⟨by simp, ?_, ?_⟩
                      · intro htrue
                        simp at htrue
                      · intro _
                        simp
                | true =>
                    rw [endpoint_stage_pass _ _ _ _ _
                      ((lookupKey st.config.endpoint_limits ep).getD 0)
                      (by rw [hx3]) hl0 (by rw [hx4]; exact hwv)]
                    refine ⟨(consume_stage_facts _ _ ip ep now).1,
                      (consume_stage_facts _ _ ip ep now).2.1, ?_, ?_, ?_, ?_,
                      rfl⟩
                    · rw [(consume_stage_facts _ _ ip ep now).2.2.1]
                      simp
                    · intro _ hcon
                      simp at hcon
                    · intro _ _ hcon
                      simp at hcon
                    · intro _ _ _
                      refine ⟨?_, ?_, ?_⟩
                      · rw [(consume_stage_facts _ _ ip ep now).2.2.2.1]
                        simp
                      · intro htrue
                        rw [(consume_stage_facts _ _ ip ep now).2.2.2.2.1 htrue]
                        simp
                      · intro hfalse
                        rw [(consume_stage_facts _ _ ip ep now).2.2.2.2.2 hfalse]
                        simp

/-- Witness for the amended C8 at a concrete whitelisted call:
`totalRequests` goes from 0 to 1 and the Allow decision carries no
reason. -/
theorem decisions_reasons_and_stats_witness :
    (check_rate_limit (RLState.init
      { ip_rate_limit := 30, ip_burst := 60, endpoint_limits := [],
        block_threshold := 1000, block_duration := 3600, burst_threshold := 50,
        whitelist := ["127.0.0.1"], enable_pattern_detection := true,
        enable_distributed_attack_detection := true,
        enable_slowloris_protection := true }) "127.0.0.1" "/api/x" 5
      ).2.stats_total_requests = 0 + 1 ∧
    (check_rate_limit (RLState.init
      { ip_rate_limit := 30, ip_burst := 60, endpoint_limits := [],
        block_threshold := 1000, block_duration := 3600, burst_threshold := 50,
        whitelist := ["127.0.0.1"], enable_pattern_detection := true,
        enable_distributed_attack_detection := true,
        enable_slowloris_protection := true }) "127.0.0.1" "/api/x" 5
      ).1.2 = none := by
  have h := decisions_reasons_and_stats (RLState.init
    { ip_rate_limit := 30, ip_burst := 60, endpoint_limits := [],
      block_threshold := 1000, block_duration := 3600, burst_threshold := 50,
      whitelist := ["127.0.0.1"], enable_pattern_detection := true,
      enable_distributed_attack_detection := true,
      enable_slowloris_protection := true }) "127.0.0.1" "/api/x" 5
  exact ⟨h.2.2.1, h.1 (by rw [crl_whitelist_eq _ _ _ _ (by decide)])⟩

end RateLimiterModel
